import Mathlib

/-!
Verification development for the dynamic color resolution engine of
material-color-utilities (TypeScript sources: `dynamiccolor/color_spec_2025.ts`,
`dynamiccolor/color_spec.ts`, `dynamiccolor/dynamic_scheme.ts`).

The embedding is shallow: numbers (hues, chromas, tones, contrast levels) are
rationals; tones manipulated by the chroma-tone search are integers, since every
call site starts the search at tone 100 or 0 and the loop steps by exactly 1.0.
External collaborators that the repository treats as out of scope (the HCT
color space model, gamut clipping, tonal palette key colors) are abstracted
into an `Ext` record of function parameters, so every theorem quantifies over
all possible behaviors of those collaborators.

Cross-role references (a node's background or tone-delta-pair partner) are
embedded symbolically, as role names resolved through the active catalog,
mirroring the design note of the specification: the TypeScript source stores
lazily-invoked factory thunks (`(s) => this.primary()`), which tie a recursive
knot that a strict language represents by a name registry.
-/

namespace MCU

/-- External collaborators: the HCT color space model and tonal palette key
color computation, declared out of scope by the repository.
`hctChroma hue chroma tone` stands for `Hct.from(hue, chroma, tone).chroma`:
the chroma actually renderable (after gamut clipping) when requesting the
given hue/chroma/tone. `isYellow`/`isBlue` are the hue-family predicates.
`keyTone hue chroma` is the key color tone of `TonalPalette.fromHueAndChroma`.
`toInt h c t` is the ARGB pixel of an HCT triple. -/
structure Ext where
  hctChroma : ℚ → ℚ → ℤ → ℚ
  isYellow : ℚ → Bool
  isBlue : ℚ → Bool
  keyTone : ℚ → ℚ → ℚ
  toInt : ℚ → ℚ → ℚ → ℤ

/-- An HCT color: hue, chroma, tone. -/
structure Hct where
  hue : ℚ
  chroma : ℚ
  tone : ℚ
deriving DecidableEq

/-- A tonal palette: a hue/chroma pair together with its key color tone
(the key color itself is computed by the external palette capability; only
its tone is read by the role catalog). -/
structure Palette where
  hue : ℚ
  chroma : ℚ
  keyColorTone : ℚ
deriving DecidableEq

/-- `TonalPalette.fromHueAndChroma(hue, chroma)`: builds a palette; the key
color is produced by the external palette capability. -/
def TonalPalette.fromHueAndChroma (E : Ext) (hue : ℚ) (chroma : ℚ) : Palette :=
  { hue := hue, chroma := chroma, keyColorTone := E.keyTone hue chroma }

/-- The `SpecVersion` type from `color_spec.ts`: the string union
`'2021' | '2025'`. -/
inductive SpecVersion where
  | v2021
  | v2025
deriving DecidableEq

/-- The data held by a constructed `DynamicScheme` (`dynamic_scheme.ts`):
theme parameters and the six generated tonal palettes. The `colors` registry
field (a `MaterialDynamicColors` instance) carries no data and is modelled by
the standalone catalog definitions below. -/
structure SchemeData where
  sourceColorHct : Hct
  sourceColorArgb : ℤ
  contrastLevel : ℚ
  isDark : Bool
  specVersion : SpecVersion
  primaryPalette : Palette
  secondaryPalette : Palette
  tertiaryPalette : Palette
  neutralPalette : Palette
  neutralVariantPalette : Palette
  errorPalette : Palette

/-- Modelled from the spec: `math.clampDouble(min, max, input)` from
`utils/math_utils.ts` (not under the provided sources) clamps the result to a
caller-given `[lowerBound, upperBound]` window. -/
def clampDouble (min : ℚ) (max : ℚ) (input : ℚ) : ℚ :=
  if input < min then min else if input > max then max else input

/-- Modelled from the spec: `math.sanitizeDegreesDouble(deg)` from
`utils/math_utils.ts` (not under the provided sources) reduces an angle modulo
360 into `[0, 360)`. -/
def sanitizeDegreesDouble (degrees : ℚ) : ℚ :=
  degrees - 360 * ⌊degrees / 360⌋

/-- The `while` loop of `findBestToneForChroma` (`color_spec_2025.ts`).
State: `tone` is the cursor, `bestChroma` the sampled chroma of the best
candidate so far (`bestCandidate.chroma`), `answer` the best tone so far.
The loop runs while `bestChroma < chroma`; inside, it breaks once the cursor
has left `[0, 100]`, otherwise steps the cursor by one (down when
`byDecreasingTone`), samples the new candidate, and keeps it only when its
sampled chroma strictly improves on the best so far. -/
def findBestToneForChromaLoop (E : Ext) (hue : ℚ) (chroma : ℚ)
    (byDecreasingTone : Bool) (tone : ℤ) (bestChroma : ℚ) (answer : ℤ) : ℤ :=
  if bestChroma < chroma then
    if tone < 0 ∨ 100 < tone then answer
    else
      let tone2 := if byDecreasingTone then tone - 1 else tone + 1
      let newChroma := E.hctChroma hue chroma tone2
      if bestChroma < newChroma then
        findBestToneForChromaLoop E hue chroma byDecreasingTone tone2 newChroma tone2
      else
        findBestToneForChromaLoop E hue chroma byDecreasingTone tone2 bestChroma answer
  else answer
termination_by (if byDecreasingTone then tone + 1 else 101 - tone).toNat
decreasing_by
  all_goals cases byDecreasingTone
  all_goals simp_all
  all_goals omega

/-- `findBestToneForChroma(hue, chroma, tone, byDecreasingTone)` from
`color_spec_2025.ts`: searches for the best tone with a given chroma from a
given start tone. `answer` starts at the given tone and `bestCandidate` is
sampled there. -/
def findBestToneForChroma (E : Ext) (hue : ℚ) (chroma : ℚ) (tone : ℤ)
    (byDecreasingTone : Bool) : ℤ :=
  findBestToneForChromaLoop E hue chroma byDecreasingTone tone
    (E.hctChroma hue chroma tone) tone

/-- `tMaxC(palette, lowerBound = 0, upperBound = 100, chromaMultiplier = 1)`
from `color_spec_2025.ts`: maximum-chroma tone search starting at tone 100,
by decreasing tone, clamped to the caller's window. Defaults are passed
explicitly at every call site of this embedding. -/
def tMaxC (E : Ext) (palette : Palette) (lowerBound : ℚ) (upperBound : ℚ)
    (chromaMultiplier : ℚ) : ℚ :=
  let answer := findBestToneForChroma E palette.hue
    (palette.chroma * chromaMultiplier) 100 true
  clampDouble lowerBound upperBound (answer : ℚ)

/-- `tMinC(palette, lowerBound = 0, upperBound = 100)` from
`color_spec_2025.ts`: minimum-chroma tone search starting at tone 0, by
increasing tone, clamped to the caller's window. -/
def tMinC (E : Ext) (palette : Palette) (lowerBound : ℚ) (upperBound : ℚ) : ℚ :=
  let answer := findBestToneForChroma E palette.hue palette.chroma 0 false
  clampDouble lowerBound upperBound (answer : ℚ)

/-- Modelled from the spec: the chroma-tone search as the specification's
section 4.5 (and claim C1) words it — "keep the best tone seen while sampled
chroma at the new tone strictly exceeds the current best, stop at the array
bound or when improvement ceases", i.e. the loop exits at the first stepped
tone whose sampled chroma does not strictly exceed the best seen so far.
For comparison against `findBestToneForChromaLoop`, which instead continues
past non-improving steps. -/
def specStopSearchLoop (E : Ext) (hue : ℚ) (chroma : ℚ)
    (byDecreasingTone : Bool) (tone : ℤ) (bestChroma : ℚ) (answer : ℤ) : ℤ :=
  if bestChroma < chroma then
    if tone < 0 ∨ 100 < tone then answer
    else
      let tone2 := if byDecreasingTone then tone - 1 else tone + 1
      let newChroma := E.hctChroma hue chroma tone2
      if bestChroma < newChroma then
        specStopSearchLoop E hue chroma byDecreasingTone tone2 newChroma tone2
      else
        answer
  else answer
termination_by (if byDecreasingTone then tone + 1 else 101 - tone).toNat
decreasing_by
  all_goals cases byDecreasingTone
  all_goals simp_all
  all_goals omega

/-- Modelled from the spec: entry point of the spec-worded search of
`specStopSearchLoop`, mirroring `findBestToneForChroma`. -/
def specStopSearch (E : Ext) (hue : ℚ) (chroma : ℚ) (tone : ℤ)
    (byDecreasingTone : Bool) : ℤ :=
  specStopSearchLoop E hue chroma byDecreasingTone tone
    (E.hctChroma hue chroma tone) tone

/-- The role identifiers of the 2025 color spec delegate
(`ColorSpecDelegateImpl2025` in `color_spec_2025.ts`). Cross-role references
(backgrounds, tone-delta-pair partners) are stored symbolically via these
names, standing for the lazily-invoked factory thunks of the source. -/
inductive RoleName where
  | primaryPaletteKeyColor
  | secondaryPaletteKeyColor
  | tertiaryPaletteKeyColor
  | neutralPaletteKeyColor
  | neutralVariantPaletteKeyColor
  | errorPaletteKeyColor
  | surface
  | surfaceDim
  | surfaceBright
  | surfaceContainerLowest
  | surfaceContainerLow
  | surfaceContainer
  | surfaceContainerHigh
  | surfaceContainerHighest
  | onSurface
  | onSurfaceVariant
  | outline
  | outlineVariant
  | inverseSurface
  | inverseOnSurface
  | shadow
  | scrim
  | primary
  | primaryDim
  | onPrimary
  | primaryContainer
  | onPrimaryContainer
  | primaryFixed
  | primaryFixedDim
  | onPrimaryFixed
  | onPrimaryFixedVariant
  | inversePrimary
  | secondary
  | secondaryDim
  | onSecondary
  | secondaryContainer
  | onSecondaryContainer
  | secondaryFixed
  | secondaryFixedDim
  | onSecondaryFixed
  | onSecondaryFixedVariant
  | tertiary
  | tertiaryDim
  | onTertiary
  | tertiaryContainer
  | onTertiaryContainer
  | tertiaryFixed
  | tertiaryFixedDim
  | onTertiaryFixed
  | onTertiaryFixedVariant
  | error
  | errorDim
  | onError
  | errorContainer
  | onErrorContainer
  | surfaceVariant
  | surfaceTint
  | background
  | onBackground
deriving DecidableEq

/-- `ContrastCurve(low, normal, medium, high)` from `contrast_curve.ts`:
four target contrast ratios keyed to contrast levels -1, 0, 0.5, 1. -/
structure ContrastCurve where
  low : ℚ
  normal : ℚ
  medium : ℚ
  high : ℚ
deriving DecidableEq

/-- The `TonePolarity` union used by `ToneDeltaPair`
(`'darker' | 'lighter' | 'relative_darker' | 'relative_lighter'`). -/
inductive TonePolarity where
  | darker
  | lighter
  | relativeDarker
  | relativeLighter
deriving DecidableEq

/-- The `DeltaConstraint` union used by `ToneDeltaPair`
(`'exact' | 'nearer' | 'farther'`). -/
inductive DeltaConstraint where
  | exact
  | nearer
  | farther
deriving DecidableEq

/-- `ToneDeltaPair(roleA, roleB, delta, polarity, stayTogether, constraint)`
from `tone_delta_pair.ts`; the two member roles are recorded symbolically by
name. -/
structure ToneDeltaPair where
  roleA : RoleName
  roleB : RoleName
  delta : ℚ
  polarity : TonePolarity
  stayTogether : Bool
  constraint : DeltaConstraint
deriving DecidableEq

/-- A palette selector `(s) => s.xPalette`, recorded as which of the scheme's
six palettes the role draws from. -/
inductive PaletteChoice where
  | primary
  | secondary
  | tertiary
  | neutral
  | neutralVariant
  | error
deriving DecidableEq

/-- Interpretation of a palette selector against a scheme. -/
def PaletteChoice.paletteOf : PaletteChoice → SchemeData → Palette
  | .primary, s => s.primaryPalette
  | .secondary, s => s.secondaryPalette
  | .tertiary, s => s.tertiaryPalette
  | .neutral, s => s.neutralPalette
  | .neutralVariant, s => s.neutralVariantPalette
  | .error, s => s.errorPalette

/-- A role's `tone` option in `DynamicColor.fromPalette`:
either a direct function of the scheme (`value`), the source's
`DynamicColor.getInitialToneFromBackground(bg)` pattern, or the source's
`this.other().getTone(s)` pattern (`getToneOf`, with
`asLightNormalContrast = true` for the `Object.assign({}, s, {isDark: false,
contrastLevel: 0})` override used by the fixed roles). The latter two are
symbolic, since tone resolution itself lives in `dynamic_color.ts`, outside
the provided sources. -/
inductive ToneRule where
  | value (f : SchemeData → ℚ)
  | initialFromBackground (bg : SchemeData → RoleName)
  | getToneOf (role : RoleName) (asLightNormalContrast : Bool)

/-- A dynamic color node: the argument record of `DynamicColor.fromPalette`
as built by the 2025 delegate. Field defaults (`isBackground: false`, absent
options) are made explicit. -/
structure DynColor where
  name : String
  palette : PaletteChoice
  tone : Option ToneRule
  isBackground : Bool
  background : Option (SchemeData → RoleName)
  contrastCurve : Option (SchemeData → Option ContrastCurve)
  toneDeltaPair : Option (SchemeData → Option ToneDeltaPair)
  chromaMultiplier : Option (SchemeData → ℚ)

/-- `getCurve(defaultContrast)` from `color_spec_2025.ts`. -/
def getCurve (defaultContrast : ℚ) : ContrastCurve :=
  if defaultContrast = 1.5 then ⟨1.5, 1.5, 3, 4.5⟩
  else if defaultContrast = 3 then ⟨3, 3, 4.5, 7⟩
  else if defaultContrast = 4.5 then ⟨4.5, 4.5, 7, 11⟩
  else if defaultContrast = 6 then ⟨6, 6, 7, 11⟩
  else if defaultContrast = 7 then ⟨7, 7, 11, 21⟩
  else if defaultContrast = 9 then ⟨9, 9, 11, 21⟩
  else if defaultContrast = 11 then ⟨11, 11, 21, 21⟩
  else if defaultContrast = 21 then ⟨21, 21, 21, 21⟩
  else ⟨defaultContrast, defaultContrast, 7, 21⟩

/-- The role name returned by `highestSurface(s)`
(`s.isDark ? this.surfaceBright() : this.surfaceDim()`), used symbolically
inside background selectors. -/
def highestSurfaceName (s : SchemeData) : RoleName :=
  if s.isDark then RoleName.surfaceBright else RoleName.surfaceDim

namespace ColorSpecDelegateImpl2025

def primaryPaletteKeyColor (E : Ext) : DynColor :=
  { name := "primary_palette_key_color"
    palette := .primary
    tone := some (.value (fun s => s.primaryPalette.keyColorTone))
    isBackground := false
    background := none
    contrastCurve := none
    toneDeltaPair := none
    chromaMultiplier := none }

def secondaryPaletteKeyColor (E : Ext) : DynColor :=
  { name := "secondary_palette_key_color"
    palette := .secondary
    tone := some (.value (fun s => s.secondaryPalette.keyColorTone))
    isBackground := false
    background := none
    contrastCurve := none
    toneDeltaPair := none
    chromaMultiplier := none }

def tertiaryPaletteKeyColor (E : Ext) : DynColor :=
  { name := "tertiary_palette_key_color"
    palette := .tertiary
    tone := some (.value (fun s => s.tertiaryPalette.keyColorTone))
    isBackground := false
    background := none
    contrastCurve := none
    toneDeltaPair := none
    chromaMultiplier := none }

def neutralPaletteKeyColor (E : Ext) : DynColor :=
  { name := "neutral_palette_key_color"
    palette := .neutral
    tone := some (.value (fun s => s.neutralPalette.keyColorTone))
    isBackground := false
    background := none
    contrastCurve := none
    toneDeltaPair := none
    chromaMultiplier := none }

def neutralVariantPaletteKeyColor (E : Ext) : DynColor :=
  { name := "neutral_variant_palette_key_color"
    palette := .neutralVariant
    tone := some (.value (fun s => s.neutralVariantPalette.keyColorTone))
    isBackground := false
    background := none
    contrastCurve := none
    toneDeltaPair := none
    chromaMultiplier := none }

def errorPaletteKeyColor (E : Ext) : DynColor :=
  { name := "error_palette_key_color"
    palette := .error
    tone := some (.value (fun s => s.errorPalette.keyColorTone))
    isBackground := false
    background := none
    contrastCurve := none
    toneDeltaPair := none
    chromaMultiplier := none }

def surface (E : Ext) : DynColor :=
  { name := "surface"
    palette := .neutral
    tone := some (.value (fun s =>
      if s.isDark then 4
      else if E.isYellow s.neutralPalette.hue then 99 else 98))
    isBackground := true
    background := none
    contrastCurve := none
    toneDeltaPair := none
    chromaMultiplier := none }

def surfaceDim (E : Ext) : DynColor :=
  { name := "surface_dim"
    palette := .neutral
    tone := some (.value (fun s =>
      if s.isDark then 4
      else if E.isYellow s.neutralPalette.hue then 90 else 87))
    isBackground := true
    background := none
    contrastCurve := none
    toneDeltaPair := none
    chromaMultiplier := some (fun s => if !s.isDark then 2.5 else 1) }

def surfaceBright (E : Ext) : DynColor :=
  { name := "surface_bright"
    palette := .neutral
    tone := some (.value (fun s =>
      if s.isDark then 18
      else if E.isYellow s.neutralPalette.hue then 99 else 98))
    isBackground := true
    background := none
    contrastCurve := none
    toneDeltaPair := none
    chromaMultiplier := some (fun s => if s.isDark then 2.5 else 1) }

def surfaceContainerLowest (E : Ext) : DynColor :=
  { name := "surface_container_lowest"
    palette := .neutral
    tone := some (.value (fun s => if s.isDark then 0 else 100))
    isBackground := true
    background := none
    contrastCurve := none
    toneDeltaPair := none
    chromaMultiplier := none }

def surfaceContainerLow (E : Ext) : DynColor :=
  { name := "surface_container_low"
    palette := .neutral
    tone := some (.value (fun s =>
      if s.isDark then 6
      else if E.isYellow s.neutralPalette.hue then 98 else 96))
    isBackground := true
    background := none
    contrastCurve := none
    toneDeltaPair := none
    chromaMultiplier := some (fun s => 1.3) }

def surfaceContainer (E : Ext) : DynColor :=
  { name := "surface_container"
    palette := .neutral
    tone := some (.value (fun s =>
      if s.isDark then 9
      else if E.isYellow s.neutralPalette.hue then 96 else 94))
    isBackground := true
    background := none
    contrastCurve := none
    toneDeltaPair := none
    chromaMultiplier := some (fun s => 1.6) }

def surfaceContainerHigh (E : Ext) : DynColor :=
  { name := "surface_container_high"
    palette := .neutral
    tone := some (.value (fun s =>
      if s.isDark then 12
      else if E.isYellow s.neutralPalette.hue then 94 else 92))
    isBackground := true
    background := none
    contrastCurve := none
    toneDeltaPair := none
    chromaMultiplier := some (fun s => 1.9) }

def surfaceContainerHighest (E : Ext) : DynColor :=
  { name := "surface_container_highest"
    palette := .neutral
    tone := some (.value (fun s =>
      if s.isDark then 15
      else if E.isYellow s.neutralPalette.hue then 92 else 90))
    isBackground := true
    background := none
    contrastCurve := none
    toneDeltaPair := none
    chromaMultiplier := some (fun s => 2.2) }

def onSurface (E : Ext) : DynColor :=
  { name := "on_surface"
    palette := .neutral
    tone := some (.initialFromBackground (fun s => highestSurfaceName s))
    isBackground := false
    background := some (fun s => highestSurfaceName s)
    contrastCurve := some (fun s =>
      some (if s.isDark then getCurve 11 else getCurve 9))
    toneDeltaPair := none
    chromaMultiplier := some (fun s => 2.2) }

def onSurfaceVariant (E : Ext) : DynColor :=
  { name := "on_surface_variant"
    palette := .neutral
    tone := none
    isBackground := false
    background := some (fun s => highestSurfaceName s)
    contrastCurve := some (fun s =>
      some (if s.isDark then getCurve 6 else getCurve 4.5))
    toneDeltaPair := none
    chromaMultiplier := some (fun s => 2.2) }

def outline (E : Ext) : DynColor :=
  { name := "outline"
    palette := .neutral
    tone := none
    isBackground := false
    background := some (fun s => highestSurfaceName s)
    contrastCurve := some (fun s => some (getCurve 3))
    toneDeltaPair := none
    chromaMultiplier := some (fun s => 2.2) }

def outlineVariant (E : Ext) : DynColor :=
  { name := "outline_variant"
    palette := .neutral
    tone := none
    isBackground := false
    background := some (fun s => highestSurfaceName s)
    contrastCurve := some (fun s => some (getCurve 1.5))
    toneDeltaPair := none
    chromaMultiplier := some (fun s => 2.2) }

def inverseSurface (E : Ext) : DynColor :=
  { name := "inverse_surface"
    palette := .neutral
    tone := some (.value (fun s => if s.isDark then 98 else 4))
    isBackground := true
    background := none
    contrastCurve := none
    toneDeltaPair := none
    chromaMultiplier := none }

def inverseOnSurface (E : Ext) : DynColor :=
  { name := "inverse_on_surface"
    palette := .neutral
    tone := none
    isBackground := false
    background := some (fun s => RoleName.inverseSurface)
    contrastCurve := some (fun s => some (getCurve 7))
    toneDeltaPair := none
    chromaMultiplier := none }

def shadow (E : Ext) : DynColor :=
  { name := "shadow"
    palette := .neutral
    tone := some (.value (fun s => 0))
    isBackground := false
    background := none
    contrastCurve := none
    toneDeltaPair := none
    chromaMultiplier := none }

def scrim (E : Ext) : DynColor :=
  { name := "scrim"
    palette := .neutral
    tone := some (.value (fun s => 0))
    isBackground := false
    background := none
    contrastCurve := none
    toneDeltaPair := none
    chromaMultiplier := none }

end ColorSpecDelegateImpl2025

namespace ColorSpecDelegateImpl2025

def primary (E : Ext) : DynColor :=
  { name := "primary"
    palette := .primary
    tone := some (.value (fun s => if s.isDark then 80 else 40))
    isBackground := true
    background := some (fun s => highestSurfaceName s)
    contrastCurve := some (fun s => some (getCurve 4.5))
    toneDeltaPair := some (fun s =>
      some ⟨.primaryContainer, .primary, 5, .relativeLighter, true, .farther⟩)
    chromaMultiplier := none }

def primaryDim (E : Ext) : DynColor :=
  { name := "primary_dim"
    palette := .primary
    tone := some (.value (fun s => 85))
    isBackground := true
    background := some (fun s => RoleName.surfaceContainerHigh)
    contrastCurve := some (fun s => some (getCurve 4.5))
    toneDeltaPair := some (fun s =>
      some ⟨.primaryDim, .primary, 5, .darker, true, .farther⟩)
    chromaMultiplier := none }

def onPrimary (E : Ext) : DynColor :=
  { name := "on_primary"
    palette := .primary
    tone := none
    isBackground := false
    background := some (fun s => RoleName.primary)
    contrastCurve := some (fun s => some (getCurve 6))
    toneDeltaPair := none
    chromaMultiplier := none }

def primaryContainer (E : Ext) : DynColor :=
  { name := "primary_container"
    palette := .primary
    tone := some (.value (fun s => if s.isDark then 30 else 90))
    isBackground := true
    background := some (fun s => highestSurfaceName s)
    contrastCurve := some (fun s =>
      if s.contrastLevel > 0 then some (getCurve 1.5) else none)
    toneDeltaPair := some (fun s => none)
    chromaMultiplier := none }

def onPrimaryContainer (E : Ext) : DynColor :=
  { name := "on_primary_container"
    palette := .primary
    tone := none
    isBackground := false
    background := some (fun s => RoleName.primaryContainer)
    contrastCurve := some (fun s => some (getCurve 6))
    toneDeltaPair := none
    chromaMultiplier := none }

def primaryFixed (E : Ext) : DynColor :=
  { name := "primary_fixed"
    palette := .primary
    tone := some (.getToneOf .primaryContainer true)
    isBackground := true
    background := some (fun s => highestSurfaceName s)
    contrastCurve := some (fun s =>
      if s.contrastLevel > 0 then some (getCurve 1.5) else none)
    toneDeltaPair := none
    chromaMultiplier := none }

def primaryFixedDim (E : Ext) : DynColor :=
  { name := "primary_fixed_dim"
    palette := .primary
    tone := some (.getToneOf .primaryFixed false)
    isBackground := true
    background := none
    contrastCurve := none
    toneDeltaPair := some (fun s =>
      some ⟨.primaryFixedDim, .primaryFixed, 5, .darker, true, .exact⟩)
    chromaMultiplier := none }

def onPrimaryFixed (E : Ext) : DynColor :=
  { name := "on_primary_fixed"
    palette := .primary
    tone := none
    isBackground := false
    background := some (fun s => RoleName.primaryFixedDim)
    contrastCurve := some (fun s => some (getCurve 7))
    toneDeltaPair := none
    chromaMultiplier := none }

def onPrimaryFixedVariant (E : Ext) : DynColor :=
  { name := "on_primary_fixed_variant"
    palette := .primary
    tone := none
    isBackground := false
    background := some (fun s => RoleName.primaryFixedDim)
    contrastCurve := some (fun s => some (getCurve 4.5))
    toneDeltaPair := none
    chromaMultiplier := none }

def inversePrimary (E : Ext) : DynColor :=
  { name := "inverse_primary"
    palette := .primary
    tone := some (.value (fun s => tMaxC E s.primaryPalette 0 100 1))
    isBackground := false
    background := some (fun s => RoleName.inverseSurface)
    contrastCurve := some (fun s => some (getCurve 6))
    toneDeltaPair := none
    chromaMultiplier := none }

def secondary (E : Ext) : DynColor :=
  { name := "secondary"
    palette := .secondary
    tone := some (.value (fun s =>
      if s.isDark then tMinC E s.secondaryPalette 0 98
      else tMaxC E s.secondaryPalette 0 100 1))
    isBackground := true
    background := some (fun s => highestSurfaceName s)
    contrastCurve := some (fun s => some (getCurve 4.5))
    toneDeltaPair := some (fun s =>
      some ⟨.secondaryContainer, .secondary, 5, .relativeLighter, true, .farther⟩)
    chromaMultiplier := none }

def secondaryDim (E : Ext) : DynColor :=
  { name := "secondary_dim"
    palette := .secondary
    tone := some (.value (fun s => 85))
    isBackground := true
    background := some (fun s => RoleName.surfaceContainerHigh)
    contrastCurve := some (fun s => some (getCurve 4.5))
    toneDeltaPair := some (fun s =>
      some ⟨.secondaryDim, .secondary, 5, .darker, true, .farther⟩)
    chromaMultiplier := none }

def onSecondary (E : Ext) : DynColor :=
  { name := "on_secondary"
    palette := .secondary
    tone := none
    isBackground := false
    background := some (fun s => RoleName.secondary)
    contrastCurve := some (fun s => some (getCurve 6))
    toneDeltaPair := none
    chromaMultiplier := none }

def secondaryContainer (E : Ext) : DynColor :=
  { name := "secondary_container"
    palette := .secondary
    tone := some (.value (fun s => if s.isDark then 25 else 90))
    isBackground := true
    background := some (fun s => highestSurfaceName s)
    contrastCurve := some (fun s =>
      if s.contrastLevel > 0 then some (getCurve 1.5) else none)
    toneDeltaPair := some (fun s => none)
    chromaMultiplier := none }

def onSecondaryContainer (E : Ext) : DynColor :=
  { name := "on_secondary_container"
    palette := .secondary
    tone := none
    isBackground := false
    background := some (fun s => RoleName.secondaryContainer)
    contrastCurve := some (fun s => some (getCurve 6))
    toneDeltaPair := none
    chromaMultiplier := none }

def secondaryFixed (E : Ext) : DynColor :=
  { name := "secondary_fixed"
    palette := .secondary
    tone := some (.getToneOf .secondaryContainer true)
    isBackground := true
    background := some (fun s => highestSurfaceName s)
    contrastCurve := some (fun s =>
      if s.contrastLevel > 0 then some (getCurve 1.5) else none)
    toneDeltaPair := none
    chromaMultiplier := none }

def secondaryFixedDim (E : Ext) : DynColor :=
  { name := "secondary_fixed_dim"
    palette := .secondary
    tone := some (.getToneOf .secondaryFixed false)
    isBackground := true
    background := none
    contrastCurve := none
    toneDeltaPair := some (fun s =>
      some ⟨.secondaryFixedDim, .secondaryFixed, 5, .darker, true, .exact⟩)
    chromaMultiplier := none }

def onSecondaryFixed (E : Ext) : DynColor :=
  { name := "on_secondary_fixed"
    palette := .secondary
    tone := none
    isBackground := false
    background := some (fun s => RoleName.secondaryFixedDim)
    contrastCurve := some (fun s => some (getCurve 7))
    toneDeltaPair := none
    chromaMultiplier := none }

def onSecondaryFixedVariant (E : Ext) : DynColor :=
  { name := "on_secondary_fixed_variant"
    palette := .secondary
    tone := none
    isBackground := false
    background := some (fun s => RoleName.secondaryFixedDim)
    contrastCurve := some (fun s => some (getCurve 4.5))
    toneDeltaPair := none
    chromaMultiplier := none }

def tertiary (E : Ext) : DynColor :=
  { name := "tertiary"
    palette := .tertiary
    tone := some (.value (fun s =>
      if s.isDark then tMaxC E s.tertiaryPalette 0 98 1
      else tMaxC E s.tertiaryPalette 0 100 1))
    isBackground := true
    background := some (fun s => highestSurfaceName s)
    contrastCurve := some (fun s => some (getCurve 4.5))
    toneDeltaPair := some (fun s =>
      some ⟨.tertiaryContainer, .tertiary, 5, .relativeLighter, true, .farther⟩)
    chromaMultiplier := none }

def tertiaryDim (E : Ext) : DynColor :=
  { name := "tertiary_dim"
    palette := .tertiary
    tone := some (.value (fun s => tMaxC E s.tertiaryPalette 0 100 1))
    isBackground := true
    background := some (fun s => RoleName.surfaceContainerHigh)
    contrastCurve := some (fun s => some (getCurve 4.5))
    toneDeltaPair := some (fun s =>
      some ⟨.tertiaryDim, .tertiary, 5, .darker, true, .farther⟩)
    chromaMultiplier := none }

def onTertiary (E : Ext) : DynColor :=
  { name := "on_tertiary"
    palette := .tertiary
    tone := none
    isBackground := false
    background := some (fun s => RoleName.tertiary)
    contrastCurve := some (fun s => some (getCurve 6))
    toneDeltaPair := none
    chromaMultiplier := none }

def tertiaryContainer (E : Ext) : DynColor :=
  { name := "tertiary_container"
    palette := .tertiary
    tone := some (.value (fun s =>
      if s.isDark then tMaxC E s.tertiaryPalette 0 93 1
      else tMaxC E s.tertiaryPalette 0 96 1))
    isBackground := true
    background := some (fun s => highestSurfaceName s)
    contrastCurve := some (fun s =>
      if s.contrastLevel > 0 then some (getCurve 1.5) else none)
    toneDeltaPair := some (fun s => none)
    chromaMultiplier := none }

def onTertiaryContainer (E : Ext) : DynColor :=
  { name := "on_tertiary_container"
    palette := .tertiary
    tone := none
    isBackground := false
    background := some (fun s => RoleName.tertiaryContainer)
    contrastCurve := some (fun s => some (getCurve 6))
    toneDeltaPair := none
    chromaMultiplier := none }

def tertiaryFixed (E : Ext) : DynColor :=
  { name := "tertiary_fixed"
    palette := .tertiary
    tone := some (.getToneOf .tertiaryContainer true)
    isBackground := true
    background := some (fun s => highestSurfaceName s)
    contrastCurve := some (fun s =>
      if s.contrastLevel > 0 then some (getCurve 1.5) else none)
    toneDeltaPair := none
    chromaMultiplier := none }

def tertiaryFixedDim (E : Ext) : DynColor :=
  { name := "tertiary_fixed_dim"
    palette := .tertiary
    tone := some (.getToneOf .tertiaryFixed false)
    isBackground := true
    background := none
    contrastCurve := none
    toneDeltaPair := some (fun s =>
      some ⟨.tertiaryFixedDim, .tertiaryFixed, 5, .darker, true, .exact⟩)
    chromaMultiplier := none }

def onTertiaryFixed (E : Ext) : DynColor :=
  { name := "on_tertiary_fixed"
    palette := .tertiary
    tone := none
    isBackground := false
    background := some (fun s => RoleName.tertiaryFixedDim)
    contrastCurve := some (fun s => some (getCurve 7))
    toneDeltaPair := none
    chromaMultiplier := none }

def onTertiaryFixedVariant (E : Ext) : DynColor :=
  { name := "on_tertiary_fixed_variant"
    palette := .tertiary
    tone := none
    isBackground := false
    background := some (fun s => RoleName.tertiaryFixedDim)
    contrastCurve := some (fun s => some (getCurve 4.5))
    toneDeltaPair := none
    chromaMultiplier := none }

def error (E : Ext) : DynColor :=
  { name := "error"
    palette := .error
    tone := some (.value (fun s =>
      if s.isDark then tMinC E s.errorPalette 0 98
      else tMaxC E s.errorPalette 0 100 1))
    isBackground := true
    background := some (fun s => highestSurfaceName s)
    contrastCurve := some (fun s => some (getCurve 4.5))
    toneDeltaPair := some (fun s =>
      some ⟨.errorContainer, .error, 5, .relativeLighter, true, .farther⟩)
    chromaMultiplier := none }

def errorDim (E : Ext) : DynColor :=
  { name := "error_dim"
    palette := .error
    tone := some (.value (fun s => tMinC E s.errorPalette 0 100))
    isBackground := true
    background := some (fun s => RoleName.surfaceContainerHigh)
    contrastCurve := some (fun s => some (getCurve 4.5))
    toneDeltaPair := some (fun s =>
      some ⟨.errorDim, .error, 5, .darker, true, .farther⟩)
    chromaMultiplier := none }

def onError (E : Ext) : DynColor :=
  { name := "on_error"
    palette := .error
    tone := none
    isBackground := false
    background := some (fun s => RoleName.error)
    contrastCurve := some (fun s => some (getCurve 6))
    toneDeltaPair := none
    chromaMultiplier := none }

def errorContainer (E : Ext) : DynColor :=
  { name := "error_container"
    palette := .error
    tone := some (.value (fun s =>
      if s.isDark then tMinC E s.errorPalette 30 93
      else tMaxC E s.errorPalette 0 90 1))
    isBackground := true
    background := some (fun s => highestSurfaceName s)
    contrastCurve := some (fun s =>
      if s.contrastLevel > 0 then some (getCurve 1.5) else none)
    toneDeltaPair := some (fun s => none)
    chromaMultiplier := none }

def onErrorContainer (E : Ext) : DynColor :=
  { name := "on_error_container"
    palette := .error
    tone := none
    isBackground := false
    background := some (fun s => RoleName.errorContainer)
    contrastCurve := some (fun s => some (getCurve 4.5))
    toneDeltaPair := none
    chromaMultiplier := none }

def surfaceVariant (E : Ext) : DynColor :=
  { surfaceContainerHighest E with name := "surface_variant" }

def surfaceTint (E : Ext) : DynColor :=
  { primary E with name := "surface_tint" }

def background (E : Ext) : DynColor :=
  { surface E with name := "background" }

def onBackground (E : Ext) : DynColor :=
  { onSurface E with name := "on_background" }

def highestSurface (E : Ext) (s : SchemeData) : DynColor :=
  if s.isDark then surfaceBright E else surfaceDim E

end ColorSpecDelegateImpl2025

/-- The full 2025 role catalog: every role factory of
`ColorSpecDelegateImpl2025`, in source order. -/
def catalog2025 (E : Ext) : List DynColor :=
  [ColorSpecDelegateImpl2025.primaryPaletteKeyColor E,
   ColorSpecDelegateImpl2025.secondaryPaletteKeyColor E,
   ColorSpecDelegateImpl2025.tertiaryPaletteKeyColor E,
   ColorSpecDelegateImpl2025.neutralPaletteKeyColor E,
   ColorSpecDelegateImpl2025.neutralVariantPaletteKeyColor E,
   ColorSpecDelegateImpl2025.errorPaletteKeyColor E,
   ColorSpecDelegateImpl2025.surface E,
   ColorSpecDelegateImpl2025.surfaceDim E,
   ColorSpecDelegateImpl2025.surfaceBright E,
   ColorSpecDelegateImpl2025.surfaceContainerLowest E,
   ColorSpecDelegateImpl2025.surfaceContainerLow E,
   ColorSpecDelegateImpl2025.surfaceContainer E,
   ColorSpecDelegateImpl2025.surfaceContainerHigh E,
   ColorSpecDelegateImpl2025.surfaceContainerHighest E,
   ColorSpecDelegateImpl2025.onSurface E,
   ColorSpecDelegateImpl2025.onSurfaceVariant E,
   ColorSpecDelegateImpl2025.outline E,
   ColorSpecDelegateImpl2025.outlineVariant E,
   ColorSpecDelegateImpl2025.inverseSurface E,
   ColorSpecDelegateImpl2025.inverseOnSurface E,
   ColorSpecDelegateImpl2025.shadow E,
   ColorSpecDelegateImpl2025.scrim E,
   ColorSpecDelegateImpl2025.primary E,
   ColorSpecDelegateImpl2025.primaryDim E,
   ColorSpecDelegateImpl2025.onPrimary E,
   ColorSpecDelegateImpl2025.primaryContainer E,
   ColorSpecDelegateImpl2025.onPrimaryContainer E,
   ColorSpecDelegateImpl2025.primaryFixed E,
   ColorSpecDelegateImpl2025.primaryFixedDim E,
   ColorSpecDelegateImpl2025.onPrimaryFixed E,
   ColorSpecDelegateImpl2025.onPrimaryFixedVariant E,
   ColorSpecDelegateImpl2025.inversePrimary E,
   ColorSpecDelegateImpl2025.secondary E,
   ColorSpecDelegateImpl2025.secondaryDim E,
   ColorSpecDelegateImpl2025.onSecondary E,
   ColorSpecDelegateImpl2025.secondaryContainer E,
   ColorSpecDelegateImpl2025.onSecondaryContainer E,
   ColorSpecDelegateImpl2025.secondaryFixed E,
   ColorSpecDelegateImpl2025.secondaryFixedDim E,
   ColorSpecDelegateImpl2025.onSecondaryFixed E,
   ColorSpecDelegateImpl2025.onSecondaryFixedVariant E,
   ColorSpecDelegateImpl2025.tertiary E,
   ColorSpecDelegateImpl2025.tertiaryDim E,
   ColorSpecDelegateImpl2025.onTertiary E,
   ColorSpecDelegateImpl2025.tertiaryContainer E,
   ColorSpecDelegateImpl2025.onTertiaryContainer E,
   ColorSpecDelegateImpl2025.tertiaryFixed E,
   ColorSpecDelegateImpl2025.tertiaryFixedDim E,
   ColorSpecDelegateImpl2025.onTertiaryFixed E,
   ColorSpecDelegateImpl2025.onTertiaryFixedVariant E,
   ColorSpecDelegateImpl2025.error E,
   ColorSpecDelegateImpl2025.errorDim E,
   ColorSpecDelegateImpl2025.onError E,
   ColorSpecDelegateImpl2025.errorContainer E,
   ColorSpecDelegateImpl2025.onErrorContainer E,
   ColorSpecDelegateImpl2025.surfaceVariant E,
   ColorSpecDelegateImpl2025.surfaceTint E,
   ColorSpecDelegateImpl2025.background E,
   ColorSpecDelegateImpl2025.onBackground E]

/-- The chroma multiplier a node applies for a scheme: the selector's value
when present, otherwise the `fromPalette` default of 1. -/
def chromaMultiplierAt (d : DynColor) (s : SchemeData) : ℚ :=
  match d.chromaMultiplier with
  | some f => f s
  | none => 1

/-- The value of a node's explicit tone selector at a scheme (0 when the
node's tone rule is absent or symbolic; all eight surface roles have a
direct `value` rule). -/
def explicitToneAt (d : DynColor) (s : SchemeData) : ℚ :=
  match d.tone with
  | some (.value f) => f s
  | _ => 0

/-- The type of a node's non-name data: everything the resolution algorithm
(`dynamic_color.ts`, an external collaborator here) consumes. -/
def NodeData : Type :=
  PaletteChoice × Option ToneRule × Bool × Option (SchemeData → RoleName) ×
    Option (SchemeData → Option ContrastCurve) ×
    Option (SchemeData → Option ToneDeltaPair) × Option (SchemeData → ℚ)

/-- Every field of a node except its `name`. -/
def nodeData (d : DynColor) : NodeData :=
  (d.palette, d.tone, d.isBackground, d.background, d.contrastCurve,
   d.toneDeltaPair, d.chromaMultiplier)

/-- The surface-family roles of the 2025 catalog (the neutral-palette roles
with a fixed surface tone table). -/
def surfaceRoleNodes (E : Ext) : List DynColor :=
  [ColorSpecDelegateImpl2025.surface E,
   ColorSpecDelegateImpl2025.surfaceDim E,
   ColorSpecDelegateImpl2025.surfaceBright E,
   ColorSpecDelegateImpl2025.surfaceContainerLowest E,
   ColorSpecDelegateImpl2025.surfaceContainerLow E,
   ColorSpecDelegateImpl2025.surfaceContainer E,
   ColorSpecDelegateImpl2025.surfaceContainerHigh E,
   ColorSpecDelegateImpl2025.surfaceContainerHighest E]

/-- The names of the 2025 neutral-palette surface-section roles whose
chroma-multiplier selector can differ from 1 (including the two legacy
aliases of such roles). -/
def neutralSurfaceChromaRoles : List String :=
  ["surface_dim", "surface_bright", "surface_container_low",
   "surface_container", "surface_container_high", "surface_container_highest",
   "on_surface", "on_surface_variant", "outline", "outline_variant",
   "surface_variant", "on_background"]

/-- The loop of `DynamicScheme.getPiecewiseHue` (`dynamic_scheme.ts`):
`for (let i = 0; i < size; i++)`, returning
`sanitizeDegreesDouble(hues[i])` at the first `i` with
`hueBreakpoints[i] <= sourceHue < hueBreakpoints[i+1]`, else the source hue.
Indexing is total in the source because `i < size` keeps both accesses in
bounds; `getD` with default 0 mirrors that. -/
def piecewiseGo (sourceHue : ℚ) (hueBreakpoints : List ℚ) (hues : List ℚ)
    (size : ℕ) (i : ℕ) : ℚ :=
  if i < size then
    if hueBreakpoints.getD i 0 ≤ sourceHue ∧
        sourceHue < hueBreakpoints.getD (i + 1) 0 then
      sanitizeDegreesDouble (hues.getD i 0)
    else piecewiseGo sourceHue hueBreakpoints hues size (i + 1)
  else sourceHue
termination_by size - i

/-- `DynamicScheme.getPiecewiseHue(sourceColorHct, hueBreakpoints, hues)`
from `dynamic_scheme.ts`. `size = Math.min(hueBreakpoints.length - 1,
hues.length)` (negative sizes, possible when `hueBreakpoints` is empty, run
the loop zero times, as `toNat` does). -/
def DynamicScheme.getPiecewiseHue (sourceColorHct : Hct)
    (hueBreakpoints : List ℚ) (hues : List ℚ) : ℚ :=
  let size := (min ((hueBreakpoints.length : ℤ) - 1)
    (hues.length : ℤ)).toNat
  piecewiseGo sourceColorHct.hue hueBreakpoints hues size 0

/-- `DynamicScheme.getRotatedHue(sourceColorHct, hueBreakpoints, rotations)`
from `dynamic_scheme.ts`: the piecewise value is used as a rotation of the
source hue; the rotation is forced to 0 only when
`min(hueBreakpoints.length - 1, rotations.length) <= 0`. -/
def DynamicScheme.getRotatedHue (sourceColorHct : Hct)
    (hueBreakpoints : List ℚ) (rotations : List ℚ) : ℚ :=
  let rotation := DynamicScheme.getPiecewiseHue sourceColorHct
    hueBreakpoints rotations
  let rotation2 := if min ((hueBreakpoints.length : ℤ) - 1)
      ((rotations.length : ℤ)) ≤ 0 then 0 else rotation
  sanitizeDegreesDouble (sourceColorHct.hue + rotation2)

namespace DynamicSchemePalettesDelegateImpl2021

def getPrimaryPalette (E : Ext) (sourceColorHct : Hct) (isDark : Bool)
    (contrastLevel : ℚ) : Palette :=
  TonalPalette.fromHueAndChroma E sourceColorHct.hue 12

def getSecondaryPalette (E : Ext) (sourceColorHct : Hct) (isDark : Bool)
    (contrastLevel : ℚ) : Palette :=
  TonalPalette.fromHueAndChroma E sourceColorHct.hue 8

def getTertiaryPalette (E : Ext) (sourceColorHct : Hct) (isDark : Bool)
    (contrastLevel : ℚ) : Palette :=
  TonalPalette.fromHueAndChroma E sourceColorHct.hue 16

def getNeutralPalette (E : Ext) (sourceColorHct : Hct) (isDark : Bool)
    (contrastLevel : ℚ) : Palette :=
  TonalPalette.fromHueAndChroma E sourceColorHct.hue 2

def getNeutralVariantPalette (E : Ext) (sourceColorHct : Hct) (isDark : Bool)
    (contrastLevel : ℚ) : Palette :=
  TonalPalette.fromHueAndChroma E sourceColorHct.hue 2

def getErrorPalette (E : Ext) (sourceColorHct : Hct) (isDark : Bool)
    (contrastLevel : ℚ) : Option Palette :=
  none

end DynamicSchemePalettesDelegateImpl2021

namespace DynamicSchemePalettesDelegateImpl2025

def getPrimaryPalette (E : Ext) (sourceColorHct : Hct) (isDark : Bool)
    (contrastLevel : ℚ) : Palette :=
  TonalPalette.fromHueAndChroma E sourceColorHct.hue
    (if E.isBlue sourceColorHct.hue then 12 else 8)

def getSecondaryPalette (E : Ext) (sourceColorHct : Hct) (isDark : Bool)
    (contrastLevel : ℚ) : Palette :=
  TonalPalette.fromHueAndChroma E sourceColorHct.hue
    (if E.isBlue sourceColorHct.hue then 6 else 4)

def getTertiaryPalette (E : Ext) (sourceColorHct : Hct) (isDark : Bool)
    (contrastLevel : ℚ) : Palette :=
  TonalPalette.fromHueAndChroma E
    (DynamicScheme.getRotatedHue sourceColorHct
      [0, 38, 105, 161, 204, 278, 333, 360]
      [-32, 26, 10, -39, 24, -15, -32])
    20

def getNeutralPalette (E : Ext) (sourceColorHct : Hct) (isDark : Bool)
    (contrastLevel : ℚ) : Palette :=
  TonalPalette.fromHueAndChroma E sourceColorHct.hue 1.4

def getNeutralVariantPalette (E : Ext) (sourceColorHct : Hct) (isDark : Bool)
    (contrastLevel : ℚ) : Palette :=
  TonalPalette.fromHueAndChroma E sourceColorHct.hue (1.4 * 2.2)

def getErrorPalette (E : Ext) (sourceColorHct : Hct) (isDark : Bool)
    (contrastLevel : ℚ) : Option Palette :=
  let errorHue := DynamicScheme.getPiecewiseHue sourceColorHct
    [0, 3, 13, 23, 33, 43, 153, 273, 360]
    [12, 22, 32, 12, 22, 32, 22, 12]
  some (TonalPalette.fromHueAndChroma E errorHue 50)

end DynamicSchemePalettesDelegateImpl2025

/-- The `DynamicSchemePalettesDelegate` interface of `dynamic_scheme.ts`. -/
structure DynamicSchemePalettesDelegate where
  getPrimaryPalette : Hct → Bool → ℚ → Palette
  getSecondaryPalette : Hct → Bool → ℚ → Palette
  getTertiaryPalette : Hct → Bool → ℚ → Palette
  getNeutralPalette : Hct → Bool → ℚ → Palette
  getNeutralVariantPalette : Hct → Bool → ℚ → Palette
  getErrorPalette : Hct → Bool → ℚ → Option Palette

/-- The module-level `spec2021` delegate instance of `dynamic_scheme.ts`. -/
def spec2021 (E : Ext) : DynamicSchemePalettesDelegate :=
  { getPrimaryPalette := DynamicSchemePalettesDelegateImpl2021.getPrimaryPalette E
    getSecondaryPalette := DynamicSchemePalettesDelegateImpl2021.getSecondaryPalette E
    getTertiaryPalette := DynamicSchemePalettesDelegateImpl2021.getTertiaryPalette E
    getNeutralPalette := DynamicSchemePalettesDelegateImpl2021.getNeutralPalette E
    getNeutralVariantPalette := DynamicSchemePalettesDelegateImpl2021.getNeutralVariantPalette E
    getErrorPalette := DynamicSchemePalettesDelegateImpl2021.getErrorPalette E }

/-- The module-level `spec2025` delegate instance of `dynamic_scheme.ts`
(`DynamicSchemePalettesDelegateImpl2025 extends ...Impl2021`, overriding all
six palette methods). -/
def spec2025 (E : Ext) : DynamicSchemePalettesDelegate :=
  { getPrimaryPalette := DynamicSchemePalettesDelegateImpl2025.getPrimaryPalette E
    getSecondaryPalette := DynamicSchemePalettesDelegateImpl2025.getSecondaryPalette E
    getTertiaryPalette := DynamicSchemePalettesDelegateImpl2025.getTertiaryPalette E
    getNeutralPalette := DynamicSchemePalettesDelegateImpl2025.getNeutralPalette E
    getNeutralVariantPalette := DynamicSchemePalettesDelegateImpl2025.getNeutralVariantPalette E
    getErrorPalette := DynamicSchemePalettesDelegateImpl2025.getErrorPalette E }

/-- `getSpec(specVersion)` from `dynamic_scheme.ts`:
`specVersion === '2025' ? spec2025 : spec2021`. -/
def getSpec (E : Ext) (specVersion : SpecVersion) :
    DynamicSchemePalettesDelegate :=
  if specVersion = SpecVersion.v2025 then spec2025 E else spec2021 E

/-- The `DynamicSchemeOptions` argument record of the `DynamicScheme`
constructor. -/
structure DynamicSchemeOptions where
  sourceColorHct : Hct
  contrastLevel : ℚ
  isDark : Bool
  specVersion : Option SpecVersion
  primaryPalette : Option Palette
  secondaryPalette : Option Palette
  tertiaryPalette : Option Palette
  neutralPalette : Option Palette
  neutralVariantPalette : Option Palette
  errorPalette : Option Palette

/-- The `DynamicScheme` constructor (`dynamic_scheme.ts`): each palette is
the caller-supplied one when present (`??`), otherwise the versioned
delegate's; the error palette additionally falls back to
`TonalPalette.fromHueAndChroma(25.0, 84.0)` when the delegate returns
`undefined`. -/
def DynamicScheme.construct (E : Ext) (args : DynamicSchemeOptions) :
    SchemeData :=
  let specVersion := args.specVersion.getD SpecVersion.v2021
  { sourceColorHct := args.sourceColorHct
    sourceColorArgb := E.toInt args.sourceColorHct.hue
      args.sourceColorHct.chroma args.sourceColorHct.tone
    contrastLevel := args.contrastLevel
    isDark := args.isDark
    specVersion := specVersion
    primaryPalette := args.primaryPalette.getD
      ((getSpec E specVersion).getPrimaryPalette args.sourceColorHct
        args.isDark args.contrastLevel)
    secondaryPalette := args.secondaryPalette.getD
      ((getSpec E specVersion).getSecondaryPalette args.sourceColorHct
        args.isDark args.contrastLevel)
    tertiaryPalette := args.tertiaryPalette.getD
      ((getSpec E specVersion).getTertiaryPalette args.sourceColorHct
        args.isDark args.contrastLevel)
    neutralPalette := args.neutralPalette.getD
      ((getSpec E specVersion).getNeutralPalette args.sourceColorHct
        args.isDark args.contrastLevel)
    neutralVariantPalette := args.neutralVariantPalette.getD
      ((getSpec E specVersion).getNeutralVariantPalette args.sourceColorHct
        args.isDark args.contrastLevel)
    errorPalette := (Option.orElse args.errorPalette (fun _ =>
      (getSpec E specVersion).getErrorPalette args.sourceColorHct
        args.isDark args.contrastLevel)).getD
      (TonalPalette.fromHueAndChroma E 25 84) }

/-- Modelled from the spec: `MaterialDynamicColors.primaryDim()`
(`material_dynamic_colors.ts`, not under the provided sources) — the role
registry of the active version; per the specification's error-handling
design and the `ColorSpecDelegate` interface, dim roles are absent
(`undefined`) under the 2021 baseline and present under 2025. -/
def MaterialDynamicColors.primaryDim (E : Ext) (specVersion : SpecVersion) :
    Option DynColor :=
  match specVersion with
  | .v2021 => none
  | .v2025 => some (ColorSpecDelegateImpl2025.primaryDim E)

/-- Modelled from the spec: `MaterialDynamicColors.secondaryDim()`, as
`MaterialDynamicColors.primaryDim`. -/
def MaterialDynamicColors.secondaryDim (E : Ext) (specVersion : SpecVersion) :
    Option DynColor :=
  match specVersion with
  | .v2021 => none
  | .v2025 => some (ColorSpecDelegateImpl2025.secondaryDim E)

/-- Modelled from the spec: `MaterialDynamicColors.tertiaryDim()`, as
`MaterialDynamicColors.primaryDim`. -/
def MaterialDynamicColors.tertiaryDim (E : Ext) (specVersion : SpecVersion) :
    Option DynColor :=
  match specVersion with
  | .v2021 => none
  | .v2025 => some (ColorSpecDelegateImpl2025.tertiaryDim E)

/-- Modelled from the spec: `MaterialDynamicColors.errorDim()`, as
`MaterialDynamicColors.primaryDim`. -/
def MaterialDynamicColors.errorDim (E : Ext) (specVersion : SpecVersion) :
    Option DynColor :=
  match specVersion with
  | .v2021 => none
  | .v2025 => some (ColorSpecDelegateImpl2025.errorDim E)

/-- `DynamicScheme.getArgb(dynamicColor)` (`dynamic_scheme.ts`): delegates to
`dynamicColor.getArgb(this)`. The resolution algorithm itself lives in
`dynamic_color.ts` (external here) and is abstracted as the function
parameter `resolveArgb`. -/
def DynamicScheme.getArgb (resolveArgb : SchemeData → DynColor → ℤ)
    (s : SchemeData) (dynamicColor : DynColor) : ℤ :=
  resolveArgb s dynamicColor

/-- The `primaryDim` getter of `DynamicScheme` (`dynamic_scheme.ts`): throws
when `this.colors.primaryDim()` is `undefined`, else returns its ARGB. The
thrown `Error` is modelled as `Except.error` carrying the message. -/
def DynamicScheme.primaryDim (E : Ext)
    (resolveArgb : SchemeData → DynColor → ℤ) (s : SchemeData) :
    Except String ℤ :=
  match MaterialDynamicColors.primaryDim E s.specVersion with
  | none => Except.error "`primaryDim` color is undefined prior to 2025 spec."
  | some d => Except.ok (DynamicScheme.getArgb resolveArgb s d)

/-- The `secondaryDim` getter of `DynamicScheme`, as
`DynamicScheme.primaryDim`. -/
def DynamicScheme.secondaryDim (E : Ext)
    (resolveArgb : SchemeData → DynColor → ℤ) (s : SchemeData) :
    Except String ℤ :=
  match MaterialDynamicColors.secondaryDim E s.specVersion with
  | none => Except.error "`secondaryDim` color is undefined prior to 2025 spec."
  | some d => Except.ok (DynamicScheme.getArgb resolveArgb s d)

/-- The `tertiaryDim` getter of `DynamicScheme`, as
`DynamicScheme.primaryDim`. -/
def DynamicScheme.tertiaryDim (E : Ext)
    (resolveArgb : SchemeData → DynColor → ℤ) (s : SchemeData) :
    Except String ℤ :=
  match MaterialDynamicColors.tertiaryDim E s.specVersion with
  | none => Except.error "`tertiaryDim` color is undefined prior to 2025 spec."
  | some d => Except.ok (DynamicScheme.getArgb resolveArgb s d)

/-- The `errorDim` getter of `DynamicScheme`, as
`DynamicScheme.primaryDim`. -/
def DynamicScheme.errorDim (E : Ext)
    (resolveArgb : SchemeData → DynColor → ℤ) (s : SchemeData) :
    Except String ℤ :=
  match MaterialDynamicColors.errorDim E s.specVersion with
  | none => Except.error "`errorDim` color is undefined prior to 2025 spec."
  | some d => Except.ok (DynamicScheme.getArgb resolveArgb s d)

/-- Role lookup by name in the 2025 catalog (the registry a per-scheme cache
would be keyed on). -/
def lookupRole (E : Ext) (n : String) : Option DynColor :=
  (catalog2025 E).find? (fun d => d.name == n)

/-- Direct (uncached) resolution of a sequence of role names against one
scheme: each name is looked up and resolved independently, recomputing
everything, as the source does. `resolve` is the (external, deterministic)
per-node resolution function for the fixed scheme. -/
def resolveRoles {β : Type} (E : Ext) (resolve : DynColor → β)
    (names : List String) : List (Option β) :=
  names.map (fun n => (lookupRole E n).map resolve)

/-- Resolution of a sequence of role names through a per-scheme cache keyed
by role name: a hit returns the stored value, a miss resolves once and
stores the result. Returns the outputs and the final cache. -/
def resolveRolesCached {β : Type} (E : Ext) (resolve : DynColor → β) :
    List String → List (String × β) → List (Option β) × List (String × β)
  | [], tbl => ([], tbl)
  | n :: ns, tbl =>
    match tbl.find? (fun p => p.1 == n) with
    | some p =>
      let rest := resolveRolesCached E resolve ns tbl
      (some p.2 :: rest.1, rest.2)
    | none =>
      match lookupRole E n with
      | none =>
        let rest := resolveRolesCached E resolve ns tbl
        (none :: rest.1, rest.2)
      | some d =>
        let o := resolve d
        let rest := resolveRolesCached E resolve ns ((n, o) :: tbl)
        (some o :: rest.1, rest.2)

/-- A trivial instantiation of the external collaborators, used to witness
theorems at concrete inputs. -/
def extZero : Ext :=
  { hctChroma := fun _ _ _ => 0
    isYellow := fun _ => false
    isBlue := fun _ => false
    keyTone := fun _ _ => 0
    toInt := fun _ _ _ => 0 }

/-- Concrete collaborators for the C1 counterexample: sampled chroma 10 at
tone 100, 5 at tone 99, 50 at tone 98, 0 elsewhere. -/
def extC1 : Ext :=
  { extZero with hctChroma := fun _ _ t =>
      if t = 98 then 50 else if t = 99 then 5 else if t = 100 then 10 else 0 }

/-- Concrete collaborators for the C2 counterexample: sampled chroma 10 at
tone 100, 50 at tone 99, 60 at tone 98, 0 elsewhere. -/
def extC2 : Ext :=
  { extZero with hctChroma := fun _ _ t =>
      if t = 98 then 60 else if t = 99 then 50 else if t = 100 then 10 else 0 }

/-- A concrete palette of hue 0, chroma 40 for the C2 counterexample. -/
def paletteC2 : Palette := { hue := 0, chroma := 40, keyColorTone := 50 }

/-- A concrete palette used to build concrete schemes for witnesses. -/
def paletteW : Palette := { hue := 0, chroma := 2, keyColorTone := 50 }

/-- A concrete light scheme for witnesses. -/
def schemeLight : SchemeData :=
  { sourceColorHct := { hue := 0, chroma := 50, tone := 50 }
    sourceColorArgb := 0
    contrastLevel := 0
    isDark := false
    specVersion := SpecVersion.v2025
    primaryPalette := paletteW
    secondaryPalette := paletteW
    tertiaryPalette := paletteW
    neutralPalette := paletteW
    neutralVariantPalette := paletteW
    errorPalette := paletteW }

/-- A concrete dark scheme for witnesses. -/
def schemeDark : SchemeData :=
  { schemeLight with isDark := true }

/-- A concrete scheme carrying the 2021 spec version for witnesses. -/
def scheme2021 : SchemeData :=
  { schemeLight with specVersion := SpecVersion.v2021 }

/-- Concrete constructor options (2021 spec version, no caller-supplied
palettes) for witnesses. -/
def optionsC10 : DynamicSchemeOptions :=
  { sourceColorHct := { hue := 123, chroma := 45, tone := 67 }
    contrastLevel := 0
    isDark := false
    specVersion := some SpecVersion.v2021
    primaryPalette := none
    secondaryPalette := none
    tertiaryPalette := none
    neutralPalette := none
    neutralVariantPalette := none
    errorPalette := none }

/-- A concrete source color whose hue (200) falls in no interval of the
breakpoint table `[0, 100]`, for witnesses. -/
def hctC9 : Hct := { hue := 200, chroma := 0, tone := 0 }

/-! ## Lemmas about the chroma-tone search loop -/

theorem findBestLoop_exit (E : Ext) (hue chroma : ℚ) (byDec : Bool) (tone : ℤ)
    (bestChroma : ℚ) (answer : ℤ) (h : ¬ bestChroma < chroma) :
    findBestToneForChromaLoop E hue chroma byDec tone bestChroma answer =
      answer := by
  rw [findBestToneForChromaLoop]
  simp [h]

theorem findBestLoop_out (E : Ext) (hue chroma : ℚ) (byDec : Bool) (tone : ℤ)
    (bestChroma : ℚ) (answer : ℤ) (h : tone < 0 ∨ 100 < tone) :
    findBestToneForChromaLoop E hue chroma byDec tone bestChroma answer =
      answer := by
  rw [findBestToneForChromaLoop]
  by_cases hb : bestChroma < chroma <;> simp [h, hb]

theorem findBestLoop_step_dec (E : Ext) (hue chroma : ℚ) (tone : ℤ)
    (bestChroma : ℚ) (answer : ℤ) (hlt : bestChroma < chroma)
    (hin : ¬(tone < 0 ∨ 100 < tone)) :
    findBestToneForChromaLoop E hue chroma true tone bestChroma answer =
      if bestChroma < E.hctChroma hue chroma (tone - 1) then
        findBestToneForChromaLoop E hue chroma true (tone - 1)
          (E.hctChroma hue chroma (tone - 1)) (tone - 1)
      else
        findBestToneForChromaLoop E hue chroma true (tone - 1) bestChroma
          answer := by
  conv_lhs => rw [findBestToneForChromaLoop]
  simp [hlt, hin]

theorem findBestLoop_step_inc (E : Ext) (hue chroma : ℚ) (tone : ℤ)
    (bestChroma : ℚ) (answer : ℤ) (hlt : bestChroma < chroma)
    (hin : ¬(tone < 0 ∨ 100 < tone)) :
    findBestToneForChromaLoop E hue chroma false tone bestChroma answer =
      if bestChroma < E.hctChroma hue chroma (tone + 1) then
        findBestToneForChromaLoop E hue chroma false (tone + 1)
          (E.hctChroma hue chroma (tone + 1)) (tone + 1)
      else
        findBestToneForChromaLoop E hue chroma false (tone + 1) bestChroma
          answer := by
  conv_lhs => rw [findBestToneForChromaLoop]
  simp [hlt, hin]

theorem findBestLoop_noImprove_dec (E : Ext) (hue chroma : ℚ) (tone : ℤ)
    (bestChroma : ℚ) (answer : ℤ)
    (h : ∀ t : ℤ, -1 ≤ t → t < tone → E.hctChroma hue chroma t ≤ bestChroma) :
    findBestToneForChromaLoop E hue chroma true tone bestChroma answer =
      answer := by
  revert h
  induction tone, bestChroma, answer
    using findBestToneForChromaLoop.induct E hue chroma true with
  | case1 tone bestC ans hlt hout =>
    intro h
    exact findBestLoop_out E hue chroma true tone bestC ans hout
  | case2 tone bestC ans hlt hin tone2 newC himp ih =>
    intro h
    exfalso
    have ht2 : tone2 = tone - 1 := rfl
    have hnc : newC = E.hctChroma hue chroma (tone - 1) := by rw [← ht2]
    have h1 : E.hctChroma hue chroma (tone - 1) ≤ bestC := by
      apply h (tone - 1) <;> omega
    rw [hnc] at himp
    linarith
  | case3 tone bestC ans hlt hin tone2 newC himp ih =>
    intro h
    have ht2 : tone2 = tone - 1 := rfl
    rw [findBestLoop_step_dec E hue chroma tone bestC ans hlt hin]
    have hnc : newC = E.hctChroma hue chroma (tone - 1) := by rw [← ht2]
    rw [hnc] at himp
    rw [if_neg himp]
    apply ih
    intro t h1 h2
    apply h t h1 (by omega)
  | case4 tone bestC ans hge =>
    intro h
    exact findBestLoop_exit E hue chroma true tone bestC ans hge

theorem findBestLoop_noImprove_inc (E : Ext) (hue chroma : ℚ) (tone : ℤ)
    (bestChroma : ℚ) (answer : ℤ)
    (h : ∀ t : ℤ, tone < t → t ≤ 101 → E.hctChroma hue chroma t ≤ bestChroma) :
    findBestToneForChromaLoop E hue chroma false tone bestChroma answer =
      answer := by
  revert h
  induction tone, bestChroma, answer
    using findBestToneForChromaLoop.induct E hue chroma false with
  | case1 tone bestC ans hlt hout =>
    intro h
    exact findBestLoop_out E hue chroma false tone bestC ans hout
  | case2 tone bestC ans hlt hin tone2 newC himp ih =>
    intro h
    exfalso
    have ht2 : tone2 = tone + 1 := rfl
    have hnc : newC = E.hctChroma hue chroma (tone + 1) := by rw [← ht2]
    have h1 : E.hctChroma hue chroma (tone + 1) ≤ bestC := by
      apply h (tone + 1) <;> omega
    rw [hnc] at himp
    linarith
  | case3 tone bestC ans hlt hin tone2 newC himp ih =>
    intro h
    have ht2 : tone2 = tone + 1 := rfl
    rw [findBestLoop_step_inc E hue chroma tone bestC ans hlt hin]
    have hnc : newC = E.hctChroma hue chroma (tone + 1) := by rw [← ht2]
    rw [hnc] at himp
    rw [if_neg himp]
    apply ih
    intro t h1 h2
    apply h t (by omega) h2
  | case4 tone bestC ans hge =>
    intro h
    exact findBestLoop_exit E hue chroma false tone bestC ans hge

theorem findBestLoop_max_dec (E : Ext) (hue chroma : ℚ) (tone : ℤ)
    (bestChroma : ℚ) (answer : ℤ)
    (htone : tone ≤ 100)
    (hbest : bestChroma = E.hctChroma hue chroma answer)
    (hlt0 : bestChroma < chroma)
    (hall : ∀ t : ℤ, -1 ≤ t → t < tone → E.hctChroma hue chroma t < chroma) :
    E.hctChroma hue chroma answer ≤
      E.hctChroma hue chroma
        (findBestToneForChromaLoop E hue chroma true tone bestChroma answer) ∧
    ∀ t : ℤ, -1 ≤ t → t < tone →
      E.hctChroma hue chroma t ≤
        E.hctChroma hue chroma
          (findBestToneForChromaLoop E hue chroma true tone bestChroma
            answer) := by
  revert htone hbest hlt0 hall
  induction tone, bestChroma, answer
    using findBestToneForChromaLoop.induct E hue chroma true with
  | case1 tone bestC ans hlt hout =>
    intro htone hbest hlt0 hall
    rw [findBestLoop_out E hue chroma true tone bestC ans hout]
    constructor
    · exact le_refl _
    · intro t h1 h2
      omega
  | case2 tone bestC ans hlt hin tone2 newC himp ih =>
    intro htone hbest hlt0 hall
    have ht2 : tone2 = tone - 1 := rfl
    have hnc : newC = E.hctChroma hue chroma (tone - 1) := by rw [← ht2]
    rw [findBestLoop_step_dec E hue chroma tone bestC ans hlt hin]
    rw [hnc] at himp
    rw [if_pos himp]
    have hm1 : (-1 : ℤ) ≤ tone - 1 := by omega
    have hcc : E.hctChroma hue chroma (tone - 1) < chroma :=
      hall _ hm1 (by omega)
    have ihr := ih (by omega) (by rw [hnc, ht2]) (by rw [hnc]; exact hcc)
      (fun t a b => hall t a (by omega))
    rw [hnc, ht2] at ihr
    constructor
    · calc E.hctChroma hue chroma ans = bestC := hbest.symm
        _ ≤ E.hctChroma hue chroma (tone - 1) := le_of_lt himp
        _ ≤ _ := ihr.1
    · intro t h1 h2
      rcases lt_or_eq_of_le (show t ≤ tone - 1 by omega) with hc | hc
      · exact ihr.2 t h1 hc
      · rw [hc]
        exact ihr.1
  | case3 tone bestC ans hlt hin tone2 newC himp ih =>
    intro htone hbest hlt0 hall
    have ht2 : tone2 = tone - 1 := rfl
    have hnc : newC = E.hctChroma hue chroma (tone - 1) := by rw [← ht2]
    rw [findBestLoop_step_dec E hue chroma tone bestC ans hlt hin]
    rw [hnc] at himp
    rw [if_neg himp]
    have ihr := ih (by omega) hbest hlt0 (fun t a b => hall t a (by omega))
    rw [ht2] at ihr
    constructor
    · exact ihr.1
    · intro t h1 h2
      rcases lt_or_eq_of_le (show t ≤ tone - 1 by omega) with hc | hc
      · exact ihr.2 t h1 hc
      · rw [hc]
        calc E.hctChroma hue chroma (tone - 1) ≤ bestC := not_lt.mp himp
          _ = E.hctChroma hue chroma ans := hbest
          _ ≤ _ := ihr.1
  | case4 tone bestC ans hge =>
    intro htone hbest hlt0 hall
    exact absurd hlt0 hge

theorem findBestLoop_max_inc (E : Ext) (hue chroma : ℚ) (tone : ℤ)
    (bestChroma : ℚ) (answer : ℤ)
    (htone : 0 ≤ tone)
    (hbest : bestChroma = E.hctChroma hue chroma answer)
    (hlt0 : bestChroma < chroma)
    (hall : ∀ t : ℤ, tone < t → t ≤ 101 → E.hctChroma hue chroma t < chroma) :
    E.hctChroma hue chroma answer ≤
      E.hctChroma hue chroma
        (findBestToneForChromaLoop E hue chroma false tone bestChroma
          answer) ∧
    ∀ t : ℤ, tone < t → t ≤ 101 →
      E.hctChroma hue chroma t ≤
        E.hctChroma hue chroma
          (findBestToneForChromaLoop E hue chroma false tone bestChroma
            answer) := by
  revert htone hbest hlt0 hall
  induction tone, bestChroma, answer
    using findBestToneForChromaLoop.induct E hue chroma false with
  | case1 tone bestC ans hlt hout =>
    intro htone hbest hlt0 hall
    rw [findBestLoop_out E hue chroma false tone bestC ans hout]
    constructor
    · exact le_refl _
    · intro t h1 h2
      omega
  | case2 tone bestC ans hlt hin tone2 newC himp ih =>
    intro htone hbest hlt0 hall
    have ht2 : tone2 = tone + 1 := rfl
    have hnc : newC = E.hctChroma hue chroma (tone + 1) := by rw [← ht2]
    rw [findBestLoop_step_inc E hue chroma tone bestC ans hlt hin]
    rw [hnc] at himp
    rw [if_pos himp]
    have hcc : E.hctChroma hue chroma (tone + 1) < chroma :=
      hall _ (by omega) (by omega)
    have ihr := ih (by omega) (by rw [hnc, ht2]) (by rw [hnc]; exact hcc)
      (fun t a b => hall t (by omega) b)
    rw [hnc, ht2] at ihr
    constructor
    · calc E.hctChroma hue chroma ans = bestC := hbest.symm
        _ ≤ E.hctChroma hue chroma (tone + 1) := le_of_lt himp
        _ ≤ _ := ihr.1
    · intro t h1 h2
      rcases lt_or_eq_of_le (show tone + 1 ≤ t by omega) with hc | hc
      · exact ihr.2 t hc h2
      · rw [← hc]
        exact ihr.1
  | case3 tone bestC ans hlt hin tone2 newC himp ih =>
    intro htone hbest hlt0 hall
    have ht2 : tone2 = tone + 1 := rfl
    have hnc : newC = E.hctChroma hue chroma (tone + 1) := by rw [← ht2]
    rw [findBestLoop_step_inc E hue chroma tone bestC ans hlt hin]
    rw [hnc] at himp
    rw [if_neg himp]
    have ihr := ih (by omega) hbest hlt0 (fun t a b => hall t (by omega) b)
    rw [ht2] at ihr
    constructor
    · exact ihr.1
    · intro t h1 h2
      rcases lt_or_eq_of_le (show tone + 1 ≤ t by omega) with hc | hc
      · exact ihr.2 t hc h2
      · rw [← hc]
        calc E.hctChroma hue chroma (tone + 1) ≤ bestC := not_lt.mp himp
          _ = E.hctChroma hue chroma ans := hbest
          _ ≤ _ := ihr.1
  | case4 tone bestC ans hge =>
    intro htone hbest hlt0 hall
    exact absurd hlt0 hge

theorem clampDouble_mem (mn mx x : ℚ) (h : mn ≤ mx) :
    mn ≤ clampDouble mn mx x ∧ clampDouble mn mx x ≤ mx := by
  unfold clampDouble
  split_ifs <;> constructor <;> linarith

/-! ## Claim C1 -/

/-- C1 counterexample: at hue 0, target chroma 40, start tone 100 (maximum
search), the first stepped tone 99 has sampled chroma 5, not exceeding the
best-so-far 10, so the search described by the claim stops there and returns
the start tone 100 — but the code's search continues past the non-improving
step, reaches tone 98 (sampled chroma 50, which also reaches the target) and
returns 98. -/
theorem findBestToneForChroma_continues_past_nonimprovement :
    specStopSearch extC1 0 40 100 true = 100 ∧
    findBestToneForChroma extC1 0 40 100 true = 98 := by
  constructor
  · rw [specStopSearch]
    rw [specStopSearchLoop]
    norm_num [extC1, extZero]
  · rw [findBestToneForChroma]
    rw [findBestToneForChromaLoop]
    norm_num [extC1, extZero]
    rw [findBestToneForChromaLoop]
    norm_num [extC1, extZero]
    rw [findBestToneForChromaLoop]
    norm_num [extC1, extZero]

/-- C1 (amended): the chroma-tone search steps the tone by 1 unit from the
start tone toward the opposite end of the range, keeps the best tone seen so
far, and stops at the array bound (one step past `[0, 100]`) or as soon as
the best sampled chroma reaches the target chroma — not at the first
non-improving step. Concretely: (a) if the start tone's sampled chroma
already reaches the target the start tone is returned at once, and (b) when
no sampled tone reaches the target (so the search runs out to the bound),
the returned tone's sampled chroma is maximal among every tone the search
sampled, non-improving steps having been stepped over rather than stopped
at. -/
theorem findBestToneForChroma_search_behavior (E : Ext) (hue chroma : ℚ)
    (t0 : ℤ) :
    (chroma ≤ E.hctChroma hue chroma t0 →
      findBestToneForChroma E hue chroma t0 true = t0 ∧
      findBestToneForChroma E hue chroma t0 false = t0) ∧
    (0 ≤ t0 → t0 ≤ 100 →
      (∀ t : ℤ, -1 ≤ t → t ≤ t0 → E.hctChroma hue chroma t < chroma) →
      ∀ t : ℤ, -1 ≤ t → t ≤ t0 →
        E.hctChroma hue chroma t ≤
          E.hctChroma hue chroma (findBestToneForChroma E hue chroma t0 true)) ∧
    (0 ≤ t0 → t0 ≤ 100 →
      (∀ t : ℤ, t0 ≤ t → t ≤ 101 → E.hctChroma hue chroma t < chroma) →
      ∀ t : ℤ, t0 ≤ t → t ≤ 101 →
        E.hctChroma hue chroma t ≤
          E.hctChroma hue chroma
            (findBestToneForChroma E hue chroma t0 false)) := by
  refine ⟨?_, ?_, ?_⟩
  · intro h
    constructor <;>
      exact findBestLoop_exit E hue chroma _ t0 _ t0 (not_lt.mpr h)
  · intro h0 h100 hall t ht1 ht2
    rw [findBestToneForChroma]
    have L := findBestLoop_max_dec E hue chroma t0
      (E.hctChroma hue chroma t0) t0 h100 rfl
      (hall t0 (by omega) le_rfl) (fun u a b => hall u a (by omega))
    rcases lt_or_eq_of_le ht2 with hc | hc
    · exact L.2 t ht1 hc
    · rw [hc]
      exact L.1
  · intro h0 h100 hall t ht1 ht2
    rw [findBestToneForChroma]
    have L := findBestLoop_max_inc E hue chroma t0
      (E.hctChroma hue chroma t0) t0 h0 rfl
      (hall t0 le_rfl (by omega)) (fun u a b => hall u (by omega) b)
    rcases lt_or_eq_of_le ht1 with hc | hc
    · exact L.2 t hc ht2
    · rw [← hc]
      exact L.1

/-- Witness for C1's amended theorem at concrete inputs. -/
theorem findBestToneForChroma_search_behavior_witness :
    extZero.hctChroma 0 1 50 ≤
      extZero.hctChroma 0 1 (findBestToneForChroma extZero 0 1 100 true) :=
  (findBestToneForChroma_search_behavior extZero 0 1 100).2.1
    (by norm_num) (by norm_num) (fun t _ _ => by norm_num [extZero])
    50 (by norm_num) (by norm_num)

/-! ## Claim C2 -/

/-- C2 counterexample: with sampled chroma 10 at tone 100, 50 at 99, 60 at
98 (target 40), `tMaxC` with the default window returns tone 99, yet the
neighboring tone in the search direction, 98, has strictly higher sampled
chroma (60 > 50): the search stopped early because the target chroma was
reached. -/
theorem tMaxC_neighbor_not_optimal :
    tMaxC extC2 paletteC2 0 100 1 = 99 ∧
    extC2.hctChroma paletteC2.hue (paletteC2.chroma * 1) 99 <
      extC2.hctChroma paletteC2.hue (paletteC2.chroma * 1) 98 := by
  constructor
  · have h1 : findBestToneForChroma extC2 0 40 100 true = 99 := by
      rw [findBestToneForChroma]
      rw [findBestToneForChromaLoop]
      norm_num [extC2, extZero]
      rw [findBestToneForChromaLoop]
      norm_num [extC2, extZero]
    rw [tMaxC]
    norm_num [paletteC2, clampDouble, h1]
  · norm_num [extC2, extZero, paletteC2]

/-- C2 (amended): `tMaxC` and `tMinC` return a tone inside the caller-given
`[lowerBound, upperBound]` window whenever the window is non-empty — in
particular a tone in `[0, 100]` under the default bounds. (The claim's
neighbor-optimality clause fails: when the search stops upon reaching the
target chroma, the neighboring tone in the search direction can have
strictly higher sampled chroma.) -/
theorem tMaxC_tMinC_in_window (E : Ext) (palette : Palette)
    (lowerBound upperBound chromaMultiplier : ℚ)
    (h : lowerBound ≤ upperBound) :
    lowerBound ≤ tMaxC E palette lowerBound upperBound chromaMultiplier ∧
    tMaxC E palette lowerBound upperBound chromaMultiplier ≤ upperBound ∧
    lowerBound ≤ tMinC E palette lowerBound upperBound ∧
    tMinC E palette lowerBound upperBound ≤ upperBound := by
  refine ⟨?_, ?_, ?_, ?_⟩
  · exact (clampDouble_mem lowerBound upperBound _ h).1
  · exact (clampDouble_mem lowerBound upperBound _ h).2
  · exact (clampDouble_mem lowerBound upperBound _ h).1
  · exact (clampDouble_mem lowerBound upperBound _ h).2

/-- Witness for C2's amended theorem at concrete inputs. -/
theorem tMaxC_tMinC_in_window_witness :
    (0 : ℚ) ≤ tMaxC extZero paletteW 0 100 1 ∧
    tMinC extZero paletteW 0 100 ≤ 100 :=
  ⟨(tMaxC_tMinC_in_window extZero paletteW 0 100 1 (by norm_num)).1,
   (tMaxC_tMinC_in_window extZero paletteW 0 100 1 (by norm_num)).2.2.2⟩

/-! ## Claim C6 -/

/-- C6 (confirmed): when no tone sampled by the search has chroma strictly
exceeding the start tone's, `findBestToneForChroma` returns the seed tone
unchanged — 100 for the maximum-chroma search and 0 for the minimum-chroma
search (before `tMaxC`/`tMinC` apply their window clamp). The stepped tones
of the maximum search are 99 down to -1 (one step past the bound is sampled
before the loop exits), and 1 up to 101 for the minimum search. -/
theorem findBestToneForChroma_seed_fallback (E : Ext) (hue chroma : ℚ) :
    ((∀ t : ℤ, -1 ≤ t → t ≤ 99 →
        E.hctChroma hue chroma t ≤ E.hctChroma hue chroma 100) →
      findBestToneForChroma E hue chroma 100 true = 100) ∧
    ((∀ t : ℤ, 1 ≤ t → t ≤ 101 →
        E.hctChroma hue chroma t ≤ E.hctChroma hue chroma 0) →
      findBestToneForChroma E hue chroma 0 false = 0) := by
  constructor
  · intro h
    rw [findBestToneForChroma]
    apply findBestLoop_noImprove_dec
    intro t h1 h2
    exact h t h1 (by omega)
  · intro h
    rw [findBestToneForChroma]
    apply findBestLoop_noImprove_inc
    intro t h1 h2
    exact h t (by omega) h2

/-- Witness for C6's theorem at concrete inputs. -/
theorem findBestToneForChroma_seed_fallback_witness :
    findBestToneForChroma extZero 0 1 100 true = 100 ∧
    findBestToneForChroma extZero 0 1 0 false = 0 :=
  ⟨(findBestToneForChroma_seed_fallback extZero 0 1).1 (fun _ _ _ => le_rfl),
   (findBestToneForChroma_seed_fallback extZero 0 1).2 (fun _ _ _ => le_rfl)⟩

/-! ## Claim C4 -/

/-- C4 (confirmed): each remapped legacy role of the 2025 catalog is built
by cloning the aliased role's node and replacing only its name
(`Object.assign(this.x().clone(), {name: ...})`), so every field the
resolution algorithm consumes is identical: any resolution function — tone
resolution reads the node's non-name data and the scheme — yields the same
hue, chroma, tone and pixel for `surfaceVariant` as for
`surfaceContainerHighest`, for `surfaceTint` as for `primary`, for
`background` as for `surface`, and for `onBackground` as for `onSurface`;
only the role names differ. -/
theorem remapped_roles_resolve_identically (E : Ext) :
    (∀ (β : Type) (resolve : NodeData → SchemeData → β) (s : SchemeData),
      resolve (nodeData (ColorSpecDelegateImpl2025.surfaceVariant E)) s =
        resolve
          (nodeData (ColorSpecDelegateImpl2025.surfaceContainerHighest E))
          s ∧
      resolve (nodeData (ColorSpecDelegateImpl2025.surfaceTint E)) s =
        resolve (nodeData (ColorSpecDelegateImpl2025.primary E)) s ∧
      resolve (nodeData (ColorSpecDelegateImpl2025.background E)) s =
        resolve (nodeData (ColorSpecDelegateImpl2025.surface E)) s ∧
      resolve (nodeData (ColorSpecDelegateImpl2025.onBackground E)) s =
        resolve (nodeData (ColorSpecDelegateImpl2025.onSurface E)) s) ∧
    (ColorSpecDelegateImpl2025.surfaceVariant E).name = "surface_variant" ∧
    (ColorSpecDelegateImpl2025.surfaceTint E).name = "surface_tint" ∧
    (ColorSpecDelegateImpl2025.background E).name = "background" ∧
    (ColorSpecDelegateImpl2025.onBackground E).name = "on_background" :=
  ⟨fun β resolve s => ⟨rfl, rfl, rfl, rfl⟩, rfl, rfl, rfl, rfl⟩

/-- Witness for C4's theorem at a concrete instantiation. -/
theorem remapped_roles_resolve_identically_witness :
    (ColorSpecDelegateImpl2025.surfaceVariant extZero).name =
      "surface_variant" :=
  (remapped_roles_resolve_identically extZero).2.1

/-! ## Claim C5 -/

/-- C5 (confirmed): `highestSurface(s)` returns the `surface_bright` node
when `s.isDark` and the `surface_dim` node otherwise; and indeed
`surface_bright` carries the largest fixed tone among the surface roles in
dark mode while `surface_dim` carries the smallest in light mode, for either
value of the yellow-hue special case. -/
theorem highestSurface_brightest_dimmest (E : Ext) (s : SchemeData) :
    (s.isDark = true →
      ColorSpecDelegateImpl2025.highestSurface E s =
        ColorSpecDelegateImpl2025.surfaceBright E ∧
      ∀ d ∈ surfaceRoleNodes E,
        explicitToneAt d s ≤
          explicitToneAt (ColorSpecDelegateImpl2025.surfaceBright E) s) ∧
    (s.isDark = false →
      ColorSpecDelegateImpl2025.highestSurface E s =
        ColorSpecDelegateImpl2025.surfaceDim E ∧
      ∀ d ∈ surfaceRoleNodes E,
        explicitToneAt (ColorSpecDelegateImpl2025.surfaceDim E) s ≤
          explicitToneAt d s) := by
  constructor
  · intro hd
    constructor
    · unfold ColorSpecDelegateImpl2025.highestSurface
      rw [hd]
      simp
    · intro d hdm
      fin_cases hdm <;>
        simp [explicitToneAt, hd,
          ColorSpecDelegateImpl2025.surface,
          ColorSpecDelegateImpl2025.surfaceDim,
          ColorSpecDelegateImpl2025.surfaceBright,
          ColorSpecDelegateImpl2025.surfaceContainerLowest,
          ColorSpecDelegateImpl2025.surfaceContainerLow,
          ColorSpecDelegateImpl2025.surfaceContainer,
          ColorSpecDelegateImpl2025.surfaceContainerHigh,
          ColorSpecDelegateImpl2025.surfaceContainerHighest] <;>
        norm_num
  · intro hd
    constructor
    · unfold ColorSpecDelegateImpl2025.highestSurface
      rw [hd]
      simp
    · intro d hdm
      fin_cases hdm <;>
        cases hy : E.isYellow s.neutralPalette.hue <;>
        simp [explicitToneAt, hd, hy,
          ColorSpecDelegateImpl2025.surface,
          ColorSpecDelegateImpl2025.surfaceDim,
          ColorSpecDelegateImpl2025.surfaceBright,
          ColorSpecDelegateImpl2025.surfaceContainerLowest,
          ColorSpecDelegateImpl2025.surfaceContainerLow,
          ColorSpecDelegateImpl2025.surfaceContainer,
          ColorSpecDelegateImpl2025.surfaceContainerHigh,
          ColorSpecDelegateImpl2025.surfaceContainerHighest] <;>
        norm_num

/-- Witness for C5's theorem at concrete schemes. -/
theorem highestSurface_brightest_dimmest_witness :
    ColorSpecDelegateImpl2025.highestSurface extZero schemeDark =
      ColorSpecDelegateImpl2025.surfaceBright extZero ∧
    ColorSpecDelegateImpl2025.highestSurface extZero schemeLight =
      ColorSpecDelegateImpl2025.surfaceDim extZero :=
  ⟨((highestSurface_brightest_dimmest extZero schemeDark).1 rfl).1,
   ((highestSurface_brightest_dimmest extZero schemeLight).2 rfl).1⟩

/-! ## Claim C7 -/

/-- C7 (confirmed): in the 2025 role catalog, every role whose
chroma-multiplier selector can return a value other than 1 draws from the
neutral palette and is one of the specific surface-section roles (or a
legacy alias of one) listed in `neutralSurfaceChromaRoles`; every role
outside that list uses the default chroma multiplier 1 for every scheme. -/
theorem chromaMultiplier_only_neutral_surfaces (E : Ext) :
    ∀ d ∈ catalog2025 E,
      ((∃ s : SchemeData, chromaMultiplierAt d s ≠ 1) →
        d.palette = PaletteChoice.neutral ∧
        d.name ∈ neutralSurfaceChromaRoles) ∧
      (d.name ∉ neutralSurfaceChromaRoles →
        ∀ s : SchemeData, chromaMultiplierAt d s = 1) := by
  intro d hd
  fin_cases hd <;>
    refine ⟨fun h => ?_, fun hn s => ?_⟩ <;>
    simp_all [chromaMultiplierAt, neutralSurfaceChromaRoles,
      ColorSpecDelegateImpl2025.primaryPaletteKeyColor,
      ColorSpecDelegateImpl2025.secondaryPaletteKeyColor,
      ColorSpecDelegateImpl2025.tertiaryPaletteKeyColor,
      ColorSpecDelegateImpl2025.neutralPaletteKeyColor,
      ColorSpecDelegateImpl2025.neutralVariantPaletteKeyColor,
      ColorSpecDelegateImpl2025.errorPaletteKeyColor,
      ColorSpecDelegateImpl2025.surface,
      ColorSpecDelegateImpl2025.surfaceDim,
      ColorSpecDelegateImpl2025.surfaceBright,
      ColorSpecDelegateImpl2025.surfaceContainerLowest,
      ColorSpecDelegateImpl2025.surfaceContainerLow,
      ColorSpecDelegateImpl2025.surfaceContainer,
      ColorSpecDelegateImpl2025.surfaceContainerHigh,
      ColorSpecDelegateImpl2025.surfaceContainerHighest,
      ColorSpecDelegateImpl2025.onSurface,
      ColorSpecDelegateImpl2025.onSurfaceVariant,
      ColorSpecDelegateImpl2025.outline,
      ColorSpecDelegateImpl2025.outlineVariant,
      ColorSpecDelegateImpl2025.inverseSurface,
      ColorSpecDelegateImpl2025.inverseOnSurface,
      ColorSpecDelegateImpl2025.shadow,
      ColorSpecDelegateImpl2025.scrim,
      ColorSpecDelegateImpl2025.primary,
      ColorSpecDelegateImpl2025.primaryDim,
      ColorSpecDelegateImpl2025.onPrimary,
      ColorSpecDelegateImpl2025.primaryContainer,
      ColorSpecDelegateImpl2025.onPrimaryContainer,
      ColorSpecDelegateImpl2025.primaryFixed,
      ColorSpecDelegateImpl2025.primaryFixedDim,
      ColorSpecDelegateImpl2025.onPrimaryFixed,
      ColorSpecDelegateImpl2025.onPrimaryFixedVariant,
      ColorSpecDelegateImpl2025.inversePrimary,
      ColorSpecDelegateImpl2025.secondary,
      ColorSpecDelegateImpl2025.secondaryDim,
      ColorSpecDelegateImpl2025.onSecondary,
      ColorSpecDelegateImpl2025.secondaryContainer,
      ColorSpecDelegateImpl2025.onSecondaryContainer,
      ColorSpecDelegateImpl2025.secondaryFixed,
      ColorSpecDelegateImpl2025.secondaryFixedDim,
      ColorSpecDelegateImpl2025.onSecondaryFixed,
      ColorSpecDelegateImpl2025.onSecondaryFixedVariant,
      ColorSpecDelegateImpl2025.tertiary,
      ColorSpecDelegateImpl2025.tertiaryDim,
      ColorSpecDelegateImpl2025.onTertiary,
      ColorSpecDelegateImpl2025.tertiaryContainer,
      ColorSpecDelegateImpl2025.onTertiaryContainer,
      ColorSpecDelegateImpl2025.tertiaryFixed,
      ColorSpecDelegateImpl2025.tertiaryFixedDim,
      ColorSpecDelegateImpl2025.onTertiaryFixed,
      ColorSpecDelegateImpl2025.onTertiaryFixedVariant,
      ColorSpecDelegateImpl2025.error,
      ColorSpecDelegateImpl2025.errorDim,
      ColorSpecDelegateImpl2025.onError,
      ColorSpecDelegateImpl2025.errorContainer,
      ColorSpecDelegateImpl2025.onErrorContainer,
      ColorSpecDelegateImpl2025.surfaceVariant,
      ColorSpecDelegateImpl2025.surfaceTint,
      ColorSpecDelegateImpl2025.background,
      ColorSpecDelegateImpl2025.onBackground]

/-- Witness for C7's theorem at a concrete role and scheme. -/
theorem chromaMultiplier_only_neutral_surfaces_witness :
    chromaMultiplierAt (ColorSpecDelegateImpl2025.primary extZero)
      schemeLight = 1 :=
  (chromaMultiplier_only_neutral_surfaces extZero
      (ColorSpecDelegateImpl2025.primary extZero)
      (by simp [catalog2025])).2 (by decide) schemeLight

/-! ## Claim C3 -/

/-- C3 (confirmed): for any scheme whose active spec version is the 2021
baseline — which does not define the dim roles — reading `primaryDim`,
`secondaryDim`, `tertiaryDim` or `errorDim` surfaces a configuration error
naming the missing role to the caller (a thrown `Error`), never a silently
defaulted color, whatever the resolution function. -/
theorem dim_getters_raise_under_2021 (E : Ext)
    (resolveArgb : SchemeData → DynColor → ℤ) (s : SchemeData)
    (h : s.specVersion = SpecVersion.v2021) :
    DynamicScheme.primaryDim E resolveArgb s =
      Except.error "`primaryDim` color is undefined prior to 2025 spec." ∧
    DynamicScheme.secondaryDim E resolveArgb s =
      Except.error "`secondaryDim` color is undefined prior to 2025 spec." ∧
    DynamicScheme.tertiaryDim E resolveArgb s =
      Except.error "`tertiaryDim` color is undefined prior to 2025 spec." ∧
    DynamicScheme.errorDim E resolveArgb s =
      Except.error "`errorDim` color is undefined prior to 2025 spec." := by
  refine ⟨?_, ?_, ?_, ?_⟩ <;>
    simp [DynamicScheme.primaryDim, DynamicScheme.secondaryDim,
      DynamicScheme.tertiaryDim, DynamicScheme.errorDim,
      MaterialDynamicColors.primaryDim, MaterialDynamicColors.secondaryDim,
      MaterialDynamicColors.tertiaryDim, MaterialDynamicColors.errorDim, h]

/-- Witness for C3's theorem at a concrete 2021 scheme. -/
theorem dim_getters_raise_under_2021_witness :
    DynamicScheme.primaryDim extZero (fun _ _ => 0) scheme2021 =
      Except.error "`primaryDim` color is undefined prior to 2025 spec." :=
  (dim_getters_raise_under_2021 extZero (fun _ _ => 0) scheme2021 rfl).1

/-! ## Claim C8 -/

theorem resolveRolesCached_invariant {β : Type} (E : Ext)
    (resolve : DynColor → β) (names : List String) :
    ∀ tbl : List (String × β),
      (∀ p ∈ tbl, (lookupRole E p.1).map resolve = some p.2) →
      (resolveRolesCached E resolve names tbl).1 =
        resolveRoles E resolve names := by
  induction names with
  | nil =>
    intro tbl hinv
    rfl
  | cons n ns ih =>
    intro tbl hinv
    simp only [resolveRolesCached, resolveRoles, List.map_cons]
    cases hfind : tbl.find? (fun p => p.1 == n) with
    | some p =>
      have hbeq : (p.1 == n) = true := by
        have := List.find?_some hfind
        simpa using this
      have hp1 : p.1 = n := eq_of_beq hbeq
      have hmem : p ∈ tbl := List.mem_of_find?_eq_some hfind
      have hv := hinv p hmem
      rw [hp1] at hv
      simp only [hv.symm]
      exact congrArg _ (ih tbl hinv)
    | none =>
      cases hlook : lookupRole E n with
      | none =>
        simp only [hlook, Option.map_none]
        exact congrArg _ (ih tbl hinv)
      | some d =>
        simp only [hlook, Option.map_some]
        refine congrArg _ (ih ((n, resolve d) :: tbl) ?_)
        intro p hp
        rcases List.mem_cons.mp hp with hp1 | hp1
        · rw [hp1]
          simp [hlook]
        · exact hinv p hp1

/-- C8 (confirmed): resolving a role is a pure function of the scheme and
the role node, so resolving the same role twice on the same scheme yields
identical output, and a per-scheme cache keyed by role name — starting
empty, storing each first resolution — produces exactly the outputs of
direct (uncached) resolution for every sequence of role lookups and every
resolution function. -/
theorem resolution_deterministic_cache_transparent {β : Type} (E : Ext)
    (resolve : DynColor → β) (names : List String) :
    (∀ (resolveArgb : SchemeData → DynColor → ℤ) (s : SchemeData)
      (d : DynColor),
      DynamicScheme.getArgb resolveArgb s d =
        DynamicScheme.getArgb resolveArgb s d) ∧
    (resolveRolesCached E resolve names []).1 =
      resolveRoles E resolve names := by
  constructor
  · intro resolveArgb s d
    rfl
  · exact resolveRolesCached_invariant E resolve names []
      (fun p hp => absurd hp (List.not_mem_nil p))

/-- Witness for C8's theorem at a concrete role-name sequence containing a
repeated lookup. -/
theorem resolution_deterministic_cache_transparent_witness :
    (resolveRolesCached extZero (fun d => d.name)
        ["primary", "primary", "shadow"] []).1 =
      resolveRoles extZero (fun d => d.name)
        ["primary", "primary", "shadow"] :=
  (resolution_deterministic_cache_transparent extZero (fun d => d.name)
    ["primary", "primary", "shadow"]).2

/-! ## Claim C9 -/

theorem piecewiseGo_no_match (sourceHue : ℚ) (bps hues : List ℚ) (size : ℕ)
    (i : ℕ)
    (h : ∀ j : ℕ, i ≤ j → j < size →
      ¬(bps.getD j 0 ≤ sourceHue ∧ sourceHue < bps.getD (j + 1) 0)) :
    piecewiseGo sourceHue bps hues size i = sourceHue := by
  revert h
  induction i using piecewiseGo.induct sourceHue bps hues size with
  | case1 i hlt hcond =>
    intro h
    exact absurd hcond (h i le_rfl hlt)
  | case2 i hlt hcond ih =>
    intro h
    rw [piecewiseGo]
    rw [if_pos hlt, if_neg hcond]
    exact ih (fun j a b => h j (by omega) b)
  | case3 i hge =>
    intro h
    rw [piecewiseGo]
    rw [if_neg hge]

/-- C9 (confirmed): when `min(hueBreakpoints.length - 1, rotations.length)`
is positive but the source hue falls in no breakpoint interval,
`DynamicScheme.getRotatedHue` returns
`sanitizeDegreesDouble(sourceHue + sourceHue)` — the source hue doubled,
modulo 360 — because the piecewise helper falls back to returning the
source hue itself, which is then applied as a rotation; the fallback that
forces the rotation to 0 (returning the sanitized source hue unchanged)
applies only when `min(hueBreakpoints.length - 1, rotations.length) <= 0`. -/
theorem getRotatedHue_unmatched_doubles_hue (sourceColorHct : Hct)
    (hueBreakpoints rotations : List ℚ) :
    (0 < min ((hueBreakpoints.length : ℤ) - 1) (rotations.length : ℤ) →
      (∀ j : ℕ,
        j < (min ((hueBreakpoints.length : ℤ) - 1)
          (rotations.length : ℤ)).toNat →
        ¬(hueBreakpoints.getD j 0 ≤ sourceColorHct.hue ∧
          sourceColorHct.hue < hueBreakpoints.getD (j + 1) 0)) →
      DynamicScheme.getRotatedHue sourceColorHct hueBreakpoints rotations =
        sanitizeDegreesDouble (sourceColorHct.hue + sourceColorHct.hue)) ∧
    (min ((hueBreakpoints.length : ℤ) - 1) (rotations.length : ℤ) ≤ 0 →
      DynamicScheme.getRotatedHue sourceColorHct hueBreakpoints rotations =
        sanitizeDegreesDouble sourceColorHct.hue) := by
  constructor
  · intro hpos hnone
    simp only [DynamicScheme.getRotatedHue]
    rw [if_neg (not_le.mpr hpos)]
    simp only [DynamicScheme.getPiecewiseHue]
    rw [piecewiseGo_no_match sourceColorHct.hue hueBreakpoints rotations _ 0
      (fun j _ b => hnone j b)]
  · intro hle
    simp only [DynamicScheme.getRotatedHue]
    rw [if_pos hle, add_zero]

/-- Witness for C9's theorem at concrete inputs: hue 200 with breakpoints
`[0, 100]` and rotations `[10]` matches no interval, so the rotated hue is
`sanitize(200 + 200) = 40`. -/
theorem getRotatedHue_unmatched_doubles_hue_witness :
    DynamicScheme.getRotatedHue hctC9 [0, 100] [10] =
      sanitizeDegreesDouble (hctC9.hue + hctC9.hue) :=
  (getRotatedHue_unmatched_doubles_hue hctC9 [0, 100] [10]).1
    (by norm_num)
    (by
      intro j hj
      simp only [List.length_cons, List.length_nil] at hj
      have hj0 : j = 0 := by omega
      subst hj0
      norm_num [hctC9, List.getD])

/-! ## Claim C10 -/

/-- C10 (confirmed): a `DynamicScheme` constructed with spec version '2021'
and no caller-supplied error palette receives the fixed error palette of
hue 25.0 and chroma 84.0, independent of the seed color: the 2021 palette
delegate returns `undefined` for the error palette and the constructor
substitutes `TonalPalette.fromHueAndChroma(25.0, 84.0)`. -/
theorem construct_2021_default_error_palette (E : Ext)
    (args : DynamicSchemeOptions)
    (hv : args.specVersion = some SpecVersion.v2021)
    (he : args.errorPalette = none) :
    (DynamicScheme.construct E args).errorPalette =
      TonalPalette.fromHueAndChroma E 25 84 ∧
    (DynamicScheme.construct E args).errorPalette.hue = 25 ∧
    (DynamicScheme.construct E args).errorPalette.chroma = 84 := by
  have h1 : (DynamicScheme.construct E args).errorPalette =
      TonalPalette.fromHueAndChroma E 25 84 := by
    simp [DynamicScheme.construct, hv, he, getSpec, spec2021,
      DynamicSchemePalettesDelegateImpl2021.getErrorPalette, Option.orElse]
  refine ⟨h1, ?_, ?_⟩
  · rw [h1]
    rfl
  · rw [h1]
    rfl

/-- Witness for C10's theorem at concrete constructor options. -/
theorem construct_2021_default_error_palette_witness :
    (DynamicScheme.construct extZero optionsC10).errorPalette.hue = 25 ∧
    (DynamicScheme.construct extZero optionsC10).errorPalette.chroma = 84 :=
  ⟨(construct_2021_default_error_palette extZero optionsC10 rfl rfl).2.1,
   (construct_2021_default_error_palette extZero optionsC10 rfl rfl).2.2⟩

end MCU
